import Mathlib

/-!
Shallow embedding of the Card 51 rummy engine.

Sources embedded:
- src/src/engine/card.ts        (Suit, Rank, Card.getValue)
- src/src/engine/groupValidator.ts (GroupValidator.validateSet / validateRun / validateMeld)
- src/src/engine/deckFactory.ts (106-card population, modelled by the validDeck predicate)
- src/gameUtils.ts              (initGame, applyAction and its helper functions)

Modelling conventions:
- CardIDs are opaque strings in the source, generated uniquely at deck creation and
  compared / sorted lexicographically.  They are modelled as Nat with the numeric
  order standing in for the lexicographic one (any monotone collision-free order).
- TypeScript Records keyed by CardID are modelled as association lists in insertion
  order; a write to an existing key overwrites in place (recSet below).
- JavaScript Array.prototype.sort is stable, so sorting by a comparator key is
  modelled with the stable List.insertionSort.
- The reducer mutates its state in place; the embedding threads the state
  explicitly.  A JavaScript TypeError (property access on undefined) is modelled
  by the whole call returning none.
-/

namespace Card51

inductive Suit where
  | CLUBS | DIAMONDS | HEARTS | SPADES | JOKER
deriving DecidableEq, Repr

inductive Rank where
  | TWO | THREE | FOUR | FIVE | SIX | SEVEN | EIGHT | NINE | TEN
  | JACK | QUEEN | KING | ACE | JOKER
deriving DecidableEq, Repr

inductive AceMode where
  | LOW | HIGH
deriving DecidableEq, Repr

abbrev CardID := Nat

structure CardDTO where
  id : CardID
  suit : Suit
  rank : Rank
deriving DecidableEq, Repr

/-- Card.getValue from card.ts: jokers 0, ACE and face cards and TEN worth 10,
numeric ranks their number. -/
def getValue (c : CardDTO) : Nat :=
  if c.rank = Rank.JOKER then 0
  else match c.rank with
    | Rank.ACE | Rank.KING | Rank.QUEEN | Rank.JACK | Rank.TEN => 10
    | Rank.TWO => 2
    | Rank.THREE => 3
    | Rank.FOUR => 4
    | Rank.FIVE => 5
    | Rank.SIX => 6
    | Rank.SEVEN => 7
    | Rank.EIGHT => 8
    | Rank.NINE => 9
    | _ => 0

/-- rankIndex from groupValidator.ts: 2..13 for TWO..KING, ACE is 14 under HIGH
and 1 under LOW; the default branch (JOKER) returns 0. -/
def rankIndex (r : Rank) (mode : AceMode) : Nat :=
  match r with
  | Rank.TWO => 2
  | Rank.THREE => 3
  | Rank.FOUR => 4
  | Rank.FIVE => 5
  | Rank.SIX => 6
  | Rank.SEVEN => 7
  | Rank.EIGHT => 8
  | Rank.NINE => 9
  | Rank.TEN => 10
  | Rank.JACK => 11
  | Rank.QUEEN => 12
  | Rank.KING => 13
  | Rank.ACE => if mode = AceMode.HIGH then 14 else 1
  | Rank.JOKER => 0

/-- indexToRank from groupValidator.ts (the mode argument is unused there too). -/
def indexToRank (idx : Nat) (_mode : AceMode) : Rank :=
  match idx with
  | 1 => Rank.ACE
  | 2 => Rank.TWO
  | 3 => Rank.THREE
  | 4 => Rank.FOUR
  | 5 => Rank.FIVE
  | 6 => Rank.SIX
  | 7 => Rank.SEVEN
  | 8 => Rank.EIGHT
  | 9 => Rank.NINE
  | 10 => Rank.TEN
  | 11 => Rank.JACK
  | 12 => Rank.QUEEN
  | 13 => Rank.KING
  | 14 => Rank.ACE
  | _ => Rank.JOKER

def isJoker (c : CardDTO) : Bool :=
  c.rank == Rank.JOKER

/-- SUIT_ORDER from groupValidator.ts. -/
def SUIT_ORDER : List Suit :=
  [Suit.CLUBS, Suit.DIAMONDS, Suit.HEARTS, Suit.SPADES]

/-- SUIT_ORDER.indexOf, as used by the set comparator (JOKER yields -1). -/
def suitIdx : Suit → Int
  | Suit.CLUBS => 0
  | Suit.DIAMONDS => 1
  | Suit.HEARTS => 2
  | Suit.SPADES => 3
  | Suit.JOKER => -1

structure JokerRep where
  suit : Suit
  rank : Rank
deriving DecidableEq, Repr

inductive MeldKind where
  | SET | RUN
deriving DecidableEq, Repr

structure MeldOk where
  kind : MeldKind
  aceMode : Option AceMode
  orderedIds : List CardID
  jokerMap : List (CardID × JokerRep)
deriving DecidableEq, Repr

inductive MeldValidation where
  | ok (v : MeldOk)
  | err (e : String)
deriving DecidableEq, Repr

def MeldValidation.isOk : MeldValidation → Bool
  | .ok _ => true
  | .err _ => false

/-- Write one key of a Record: overwrite in place if the key exists, else append. -/
def recSet (m : List (CardID × JokerRep)) (k : CardID) (v : JokerRep) :
    List (CardID × JokerRep) :=
  match m with
  | [] => [(k, v)]
  | (k0, v0) :: rest => if k0 = k then (k, v) :: rest else (k0, v0) :: recSet rest k v

def recSetAll (m : List (CardID × JokerRep)) (pairs : List (CardID × JokerRep)) :
    List (CardID × JokerRep) :=
  pairs.foldl (fun acc kv => recSet acc kv.1 kv.2) m

/-- GroupValidator.validateSet from groupValidator.ts. -/
def validateSet (cards : List CardDTO) : MeldValidation :=
  if cards.length < 3 ∨ cards.length > 4 then .err "Set must be size 3 or 4."
  else
    let jokers := cards.filter (fun c => isJoker c)
    let non := cards.filter (fun c => !isJoker c)
    match non with
    | [] => .err "Set must have at least one non-joker card."
    | n0 :: _ =>
      let rank := n0.rank
      if !(non.all (fun c => c.rank == rank)) then .err "Set ranks must match."
      else if !(non.map (fun c => c.suit)).Nodup then .err "Duplicate suit in set."
      else if (non.map (fun c => c.suit)).dedup.length + jokers.length ≠ cards.length then
        .err "Invalid set size."
      else
        let missing := SUIT_ORDER.filter (fun s => !((non.map (fun c => c.suit)).contains s))
        let jokerIds := List.insertionSort (· ≤ ·) (jokers.map (fun c => c.id))
        if missing.length < jokerIds.length then .err "Too many jokers for set."
        else
          let jokerMap :=
            recSetAll [] ((jokerIds.zip missing).map (fun kv => (kv.1, ⟨kv.2, rank⟩)))
          let orderedNon :=
            List.insertionSort (fun a b => suitIdx a.suit ≤ suitIdx b.suit) non
          .ok ⟨MeldKind.SET, none, orderedNon.map (fun c => c.id) ++ jokerIds, jokerMap⟩

/-- Detects an adjacent duplicate in an (already sorted) index list, as the
duplicate-rank loop in validateRun does. -/
def sortedHasAdjDup : List Nat → Bool
  | a :: b :: rest => a == b || sortedHasAdjDup (b :: rest)
  | _ => false

/-- The start values the window-search loop of validateRun iterates over:
minRank, minRank+1, ..., maxRank - len + 1 (empty when that range is empty). -/
def runStartCandidates (mode : AceMode) (len : Nat) : List Nat :=
  let maxRank := if mode = AceMode.HIGH then 14 else 13
  let minRank := if mode = AceMode.HIGH then 2 else 1
  List.range' minRank (maxRank + 2 - len - minRank)

/-- The chosenStart computation of validateRun: the first start in range whose
window [start, start+len-1] covers the least and greatest non-joker index and
whose uncovered-slot count does not exceed the joker count. -/
def runChosenStart (mode : AceMode) (len mn mx nonCount jokCount : Nat) : Option Nat :=
  (runStartCandidates mode len).find? (fun start =>
    decide (start ≤ mn) && decide (mx ≤ start + len - 1) && decide (len - nonCount ≤ jokCount))

/-- The normalize-order loop of validateRun: lay the window slots out in order,
each slot taking its real card when one matches, else the next joker.  (In the
source a slot with neither would push undefined; that point is unreachable
because the uncovered slots are exactly as many as the jokers.) -/
def runLayout (slots : List Nat) (non : List CardDTO) (jokerIds : List CardID)
    (mode : AceMode) : List CardID :=
  match slots with
  | [] => []
  | v :: rest =>
    match non.find? (fun c => rankIndex c.rank mode == v) with
    | some c => c.id :: runLayout rest non jokerIds mode
    | none =>
      match jokerIds with
      | j :: js => j :: runLayout rest non js mode
      | [] => runLayout rest non [] mode

/-- GroupValidator.validateRun from groupValidator.ts. -/
def validateRun (cards : List CardDTO) (mode : AceMode) : MeldValidation :=
  if cards.length < 3 then .err "Run must be at least 3 cards."
  else
    let jokers := cards.filter (fun c => isJoker c)
    let non := cards.filter (fun c => !isJoker c)
    match non with
    | [] => .err "Run cannot be all jokers."
    | n0 :: _ =>
      let suit := n0.suit
      if !(non.all (fun c => c.suit == suit)) then .err "Run suit must match."
      else
        let idxs := List.insertionSort (· ≤ ·) (non.map (fun c => rankIndex c.rank mode))
        if sortedHasAdjDup idxs then .err "Duplicate rank in run."
        else
          let len := cards.length
          match runChosenStart mode len (idxs.headD 0) (idxs.getLastD 0)
              idxs.length jokers.length with
          | none => .err "Run cannot be completed with jokers."
          | some start =>
            let missingIdxs := (List.range' start len).filter (fun v => !(idxs.contains v))
            let jokerIds := List.insertionSort (· ≤ ·) (jokers.map (fun c => c.id))
            if missingIdxs.length < jokerIds.length then
              .err "Too many jokers for chosen run window."
            else
              let jokerMap := recSetAll []
                ((jokerIds.zip missingIdxs).map
                  (fun kv => (kv.1, ⟨suit, indexToRank kv.2 mode⟩)))
              .ok ⟨MeldKind.RUN, some mode,
                runLayout (List.range' start len) non jokerIds mode, jokerMap⟩

/-- GroupValidator.validateMeld from groupValidator.ts: try SET, then RUN under
ace-LOW, then RUN under ace-HIGH, returning the first success. -/
def validateMeld (cards : List CardDTO) : MeldValidation :=
  match validateSet cards with
  | .ok v => .ok v
  | .err _ =>
    match validateRun cards AceMode.LOW with
    | .ok v => .ok v
    | .err _ =>
      match validateRun cards AceMode.HIGH with
      | .ok v => .ok v
      | .err _ => .err "Not a valid set or run."

inductive Phase where
  | DRAW | ACTION | DISCARD | GAME_OVER
deriving DecidableEq, Repr

inductive DrawSource where
  | DECK | DISCARD
deriving DecidableEq, Repr

structure PlayerPublic where
  opened : Bool
  handCount : Nat
deriving DecidableEq, Repr

structure Meld where
  mid : Nat
  owner : Fin 4
  cardIds : List CardID
  kind : MeldKind
  aceMode : Option AceMode
  jokerMap : List (CardID × JokerRep)
deriving DecidableEq, Repr

/-- GameState from types.ts / gameUtils.ts.  The hidden __drawOrder array is the
drawOrder field (top of the pile is the last element, popped from the end).
cardsById is the id-keyed Record of all 106 cards; a lookup of an unknown id
yields none (undefined in the source). -/
structure GameState where
  numPlayers : Nat
  currentTurn : Fin 4
  phase : Phase
  winner : Option (Fin 4)
  deckCount : Nat
  discard : List CardID
  lastDrawnCardId : Option CardID
  lastDrawSource : Option DrawSource
  cardsById : CardID → Option CardDTO
  playersPublic : Fin 4 → PlayerPublic
  hands : Fin 4 → List CardID
  tableMelds : List Meld
  drawOrder : List CardID

inductive Action where
  | DRAW_DECK (player : Fin 4)
  | DRAW_DISCARD (player : Fin 4)
  | OPEN_GROUP (player : Fin 4) (cardIds : List CardID)
  | OPEN_MULTI (player : Fin 4) (groups : List (List CardID))
  | LAY_MELD (player : Fin 4) (cardIds : List CardID)
  | ADD_TO_MELD (player : Fin 4) (meldId : Nat) (cardIds : List CardID)
  | SWAP_JOKER (player : Fin 4) (meldId : Nat) (jokerId : CardID) (replaceWithId : CardID)
  | PASS_ACTION (player : Fin 4)
  | DISCARD (player : Fin 4) (cardId : List CardID)
deriving DecidableEq, Repr

def Action.player : Action → Fin 4
  | .DRAW_DECK p | .DRAW_DISCARD p | .OPEN_GROUP p _ | .OPEN_MULTI p _
  | .LAY_MELD p _ | .ADD_TO_MELD p _ _ | .SWAP_JOKER p _ _ _
  | .PASS_ACTION p | .DISCARD p _ => p

structure ActionResult where
  ok : Bool
  error : Option String
deriving DecidableEq, Repr

def okRes : ActionResult := ⟨true, none⟩

def failRes (e : String) : ActionResult := ⟨false, some e⟩

/-- dtoByIds from gameUtils.ts: resolve every id through the cardsById Record.
The callers dereference each element, so a single unknown id makes the whole
call raise; none models that TypeError. -/
def lookupAll (cardsById : CardID → Option CardDTO) : List CardID → Option (List CardDTO)
  | [] => some []
  | id :: rest =>
    match cardsById id with
    | none => none
    | some c =>
      match lookupAll cardsById rest with
      | none => none
      | some cs => some (c :: cs)

/-- groupPoints from gameUtils.ts; none models the TypeError raised when an id
is absent from cardsById (toCardClass dereferences the undefined lookup). -/
def groupPoints (ids : List CardID) (cardsById : CardID → Option CardDTO) : Option Nat :=
  ids.foldl (fun acc id => acc.bind (fun t => (cardsById id).map (fun c => t + getValue c)))
    (some 0)

/-- One splice step of removeFromHand: splice(indexOf(id), 1) removes the first
occurrence when present, and splice(-1, 1) removes the LAST element when
indexOf returned -1. -/
def removeOne (hand : List CardID) (id : CardID) : List CardID :=
  if hand.contains id then hand.erase id else hand.dropLast

/-- removeFromHand from gameUtils.ts; none models the false return (every id is
membership-checked before any mutation happens). -/
def removeFromHand (s : GameState) (p : Fin 4) (cardIds : List CardID) : Option GameState :=
  if cardIds.all (fun id => (s.hands p).contains id) then
    let newHand := cardIds.foldl removeOne (s.hands p)
    some { s with
      hands := Function.update s.hands p newHand
      playersPublic := Function.update s.playersPublic p
        { s.playersPublic p with handCount := newHand.length } }
  else none

/-- addBackToHand from gameUtils.ts: re-append at the end of the hand. -/
def addBackToHand (s : GameState) (p : Fin 4) (cardIds : List CardID) : GameState :=
  let newHand := s.hands p ++ cardIds
  { s with
    hands := Function.update s.hands p newHand
    playersPublic := Function.update s.playersPublic p
      { s.playersPublic p with handCount := newHand.length } }

/-- nextTurn from gameUtils.ts.  The source computes (currentTurn+1) % numPlayers;
numPlayers is 2..4 there, so the extra outer % 4 needed for the Fin 4 type is
the identity on every state the source builds. -/
def nextTurn (s : GameState) : GameState :=
  { s with
    currentTurn := ⟨((s.currentTurn.val + 1) % s.numPlayers) % 4, Nat.mod_lt _ (by omega)⟩
    phase := Phase.DRAW
    lastDrawnCardId := none
    lastDrawSource := none }

/-- In-place mutation of the meld object returned by tableMelds.find: rewrite the
first meld carrying this id. -/
def updateMeld (melds : List Meld) (mid : Nat) (f : Meld → Meld) : List Meld :=
  match melds with
  | [] => []
  | m :: rest => if m.mid == mid then f m :: rest else m :: updateMeld rest mid f

def applyDrawDeck (s : GameState) (p : Fin 4) : GameState × ActionResult :=
  if s.phase ≠ Phase.DRAW then (s, failRes "Not in DRAW phase.")
  else
    match s.drawOrder.getLast? with
    | none => (s, failRes "Deck empty.")
    | some id =>
      let rest := s.drawOrder.dropLast
      ({ s with
          drawOrder := rest
          deckCount := rest.length
          hands := Function.update s.hands p (s.hands p ++ [id])
          playersPublic := Function.update s.playersPublic p
            { s.playersPublic p with handCount := (s.playersPublic p).handCount + 1 }
          lastDrawnCardId := some id
          lastDrawSource := some DrawSource.DECK
          phase := Phase.ACTION }, okRes)

/-- DRAW_DISCARD; the unopened and empty-pile cases recurse into DRAW_DECK in the
source (the re-run entry guard passes again), so they are inlined here. -/
def applyDrawDiscard (s : GameState) (p : Fin 4) : GameState × ActionResult :=
  if s.phase ≠ Phase.DRAW then (s, failRes "Not in DRAW phase.")
  else if !(s.playersPublic p).opened then applyDrawDeck s p
  else
    match s.discard.getLast? with
    | none => applyDrawDeck s p
    | some id =>
      ({ s with
          discard := s.discard.dropLast
          hands := Function.update s.hands p (s.hands p ++ [id])
          playersPublic := Function.update s.playersPublic p
            { s.playersPublic p with handCount := (s.playersPublic p).handCount + 1 }
          lastDrawnCardId := some id
          lastDrawSource := some DrawSource.DISCARD
          phase := Phase.ACTION }, okRes)

/-- The discard-drawn inclusion rule shared by OPEN_GROUP and OPEN_MULTI (they
differ only in the message). -/
def discardDrawnError (s : GameState) (ids : List CardID) (msg : String) : Option String :=
  if s.lastDrawSource = some DrawSource.DISCARD then
    match s.lastDrawnCardId with
    | none => some "No drawn card recorded."
    | some c => if ids.contains c then none else some msg
  else none

/-- Per-group validation in OPEN_MULTI; none models the TypeError when a group
names an id absent from cardsById. -/
def validateGroup (s : GameState) (g : List CardID) : Option MeldValidation :=
  if g.length < 3 then some (.err "Each group must have 3+ cards.")
  else (lookupAll s.cardsById g).map validateMeld

/-- The validations array of OPEN_MULTI, one entry per group, in order; none
models the TypeError raised while validating some group. -/
def validateGroups (s : GameState) : List (List CardID) → Option (List MeldValidation)
  | [] => some []
  | g :: rest =>
    match validateGroup s g with
    | none => none
    | some v =>
      match validateGroups s rest with
      | none => none
      | some vs => some (v :: vs)

def firstErr : List MeldValidation → Option String
  | [] => none
  | .err e :: _ => some e
  | .ok _ :: rest => firstErr rest

def pushMelds (s : GameState) (p : Fin 4) (vs : List MeldValidation) : GameState :=
  vs.foldl (fun st v =>
    match v with
    | .ok mv => { st with tableMelds := st.tableMelds ++
        [⟨st.tableMelds.length, p, mv.orderedIds, mv.kind, mv.aceMode, mv.jokerMap⟩] }
    | .err _ => st) s

def applyOpenMulti (s : GameState) (p : Fin 4) (groups : List (List CardID)) :
    Option (GameState × ActionResult) :=
  if s.phase ≠ Phase.ACTION then some (s, failRes "Not in ACTION phase.")
  else if (s.playersPublic p).opened then some (s, failRes "Already opened.")
  else if groups.length < 1 then some (s, failRes "Must open with at least one meld.")
  else if ¬ groups.flatten.Nodup then some (s, failRes "Duplicate card in groups.")
  else
    match discardDrawnError s groups.flatten "Opening must include the discard-drawn card." with
    | some e => some (s, failRes e)
    | none =>
      if (s.hands p).length - groups.flatten.length < 1 then
        some (s, failRes "Must keep one to discard.")
      else if !(groups.flatten.all (fun id => (s.hands p).contains id)) then
        some (s, failRes "Card not in hand.")
      else
        match groupPoints groups.flatten s.cardsById with
        | none => none
        | some pts =>
          if pts < 51 then some (s, failRes "Need 51+ points to open.")
          else
            match validateGroups s groups with
            | none => none
            | some validations =>
              match firstErr validations with
              | some e => some (s, failRes e)
              | none =>
                match removeFromHand s p groups.flatten with
                | none => some (s, failRes "Card not in hand.")
                | some s1 =>
                  let s2 := pushMelds s1 p validations
                  some ({ s2 with
                      playersPublic := Function.update s2.playersPublic p
                        { s2.playersPublic p with opened := true }
                      phase := Phase.DISCARD }, okRes)

def applyOpenGroup (s : GameState) (p : Fin 4) (cardIds : List CardID) :
    Option (GameState × ActionResult) :=
  if s.phase ≠ Phase.ACTION then some (s, failRes "Not in ACTION phase.")
  else if (s.playersPublic p).opened then some (s, failRes "Already opened.")
  else
    match discardDrawnError s cardIds "Opening group must include the discard-drawn card." with
    | some e => some (s, failRes e)
    | none =>
      match groupPoints cardIds s.cardsById with
      | none => none
      | some pts =>
        if pts < 51 then some (s, failRes "Need 51+ points to open.")
        else if (s.hands p).length - cardIds.length < 1 then
          some (s, failRes "Must keep one to discard.")
        else
          match lookupAll s.cardsById cardIds with
          | none => none
          | some dtos =>
            match validateMeld dtos with
            | .err e => some (s, failRes e)
            | .ok mv =>
              match removeFromHand s p cardIds with
              | none => some (s, failRes "Card not in hand.")
              | some s1 =>
                some ({ s1 with
                    tableMelds := s1.tableMelds ++
                      [⟨s1.tableMelds.length, p, mv.orderedIds, mv.kind,
                        mv.aceMode, mv.jokerMap⟩]
                    playersPublic := Function.update s1.playersPublic p
                      { s1.playersPublic p with opened := true }
                    phase := Phase.DISCARD }, okRes)

def applyLayMeld (s : GameState) (p : Fin 4) (cardIds : List CardID) :
    Option (GameState × ActionResult) :=
  if s.phase ≠ Phase.ACTION then some (s, failRes "Not in ACTION phase.")
  else if !(s.playersPublic p).opened then some (s, failRes "Must open first.")
  else if (s.hands p).length - cardIds.length < 1 then
    some (s, failRes "Must keep one to discard.")
  else
    match lookupAll s.cardsById cardIds with
    | none => none
    | some dtos =>
      match validateMeld dtos with
      | .err e => some (s, failRes e)
      | .ok mv =>
        match removeFromHand s p cardIds with
        | none => some (s, failRes "Card not in hand.")
        | some s1 =>
          some ({ s1 with
              tableMelds := s1.tableMelds ++
                [⟨s1.tableMelds.length, p, mv.orderedIds, mv.kind, mv.aceMode, mv.jokerMap⟩]
              phase := Phase.DISCARD }, okRes)

def applyAddToMeld (s : GameState) (p : Fin 4) (meldId : Nat) (cardIds : List CardID) :
    Option (GameState × ActionResult) :=
  if s.phase ≠ Phase.ACTION then some (s, failRes "Not in ACTION phase.")
  else if !(s.playersPublic p).opened then some (s, failRes "Must open first.")
  else
    match s.tableMelds.find? (fun m => m.mid == meldId) with
    | none => some (s, failRes "Meld not found.")
    | some meld =>
      if (s.hands p).length - cardIds.length < 1 then
        some (s, failRes "Must keep one to discard.")
      else
        match removeFromHand s p cardIds with
        | none => some (s, failRes "Card not in hand.")
        | some s1 =>
          match lookupAll s.cardsById (meld.cardIds ++ cardIds) with
          | none => none
          | some dtos =>
            match validateMeld dtos with
            | .err e => some (addBackToHand s1 p cardIds, failRes e)
            | .ok mv =>
              let melds2 := updateMeld s1.tableMelds meldId (fun m =>
                { m with cardIds := mv.orderedIds, kind := mv.kind, aceMode := mv.aceMode, jokerMap := mv.jokerMap })
              some ({ s1 with tableMelds := melds2, phase := Phase.DISCARD }, okRes)

def applySwapJoker (s : GameState) (p : Fin 4) (meldId : Nat)
    (jokerId replaceWithId : CardID) : Option (GameState × ActionResult) :=
  if s.phase ≠ Phase.ACTION then some (s, failRes "Not in ACTION phase.")
  else if !(s.playersPublic p).opened then some (s, failRes "Must open first.")
  else
    match s.tableMelds.find? (fun m => m.mid == meldId) with
    | none => some (s, failRes "Meld not found.")
    | some meld =>
      if !(meld.cardIds.contains jokerId) then some (s, failRes "Joker not in meld.")
      else
        match List.lookup jokerId meld.jokerMap with
        | none => some (s, failRes "This joker has no stored substitution.")
        | some rep =>
          match s.cardsById replaceWithId with
          | none => some (s, failRes "Replacement card not found.")
          | some replaceDto =>
            if replaceDto.rank ≠ rep.rank ∨ replaceDto.suit ≠ rep.suit then
              some (s, failRes "Replacement card does not match joker substitution.")
            else
              match removeFromHand s p [replaceWithId] with
              | none => some (s, failRes "Replacement card not in hand.")
              | some s1 =>
                let swappedIds := meld.cardIds.map
                  (fun id => if id = jokerId then replaceWithId else id)
                let melds2 := updateMeld s1.tableMelds meldId
                  (fun m => { m with cardIds := swappedIds })
                let s2 := { s1 with tableMelds := melds2 }
                let h3 := s2.hands p ++ [jokerId]
                let pub3 := Function.update s2.playersPublic p
                  { s2.playersPublic p with handCount := h3.length }
                let s3 := { s2 with hands := Function.update s2.hands p h3, playersPublic := pub3 }
                match lookupAll s3.cardsById swappedIds with
                | none => none
                | some dtos =>
                  match validateMeld dtos with
                  | .err e =>
                    let h4 := (s3.hands p).erase jokerId ++ [replaceWithId]
                    let pub4 := Function.update s3.playersPublic p
                      { s3.playersPublic p with handCount := h4.length }
                    let melds4 := updateMeld s3.tableMelds meldId (fun m =>
                      { m with cardIds := m.cardIds.map (fun id => if id = replaceWithId then jokerId else id) })
                    some ({ s3 with hands := Function.update s3.hands p h4, playersPublic := pub4, tableMelds := melds4 }, failRes e)
                  | .ok mv =>
                    let melds4 := updateMeld s3.tableMelds meldId (fun m =>
                      { m with cardIds := mv.orderedIds, kind := mv.kind, aceMode := mv.aceMode, jokerMap := mv.jokerMap })
                    some ({ s3 with tableMelds := melds4 }, okRes)

def applyPassAction (s : GameState) : GameState × ActionResult :=
  if s.phase ≠ Phase.ACTION then (s, failRes "Not in ACTION phase.")
  else ({ s with phase := Phase.DISCARD }, okRes)

def applyDiscard (s : GameState) (p : Fin 4) (cardId : List CardID) :
    GameState × ActionResult :=
  if s.phase ≠ Phase.DISCARD then (s, failRes "Not in DISCARD phase.")
  else if cardId.length ≠ 1 then (s, failRes "Discard exactly one card.")
  else
    let id := cardId.headD 0
    match removeFromHand s p [id] with
    | none => (s, failRes "Card not in hand.")
    | some s1 =>
      let s2 := { s1 with discard := s1.discard ++ [id] }
      if (s2.hands p).length = 0 then
        ({ s2 with winner := some p, phase := Phase.GAME_OVER }, okRes)
      else (nextTurn s2, okRes)

/-- The per-action dispatch of applyAction (after the shared entry guard). -/
def applyActionBody (s : GameState) (a : Action) : Option (GameState × ActionResult) :=
  match a with
  | .DRAW_DECK p => some (applyDrawDeck s p)
  | .DRAW_DISCARD p => some (applyDrawDiscard s p)
  | .OPEN_GROUP p ids => applyOpenGroup s p ids
  | .OPEN_MULTI p groups => applyOpenMulti s p groups
  | .LAY_MELD p ids => applyLayMeld s p ids
  | .ADD_TO_MELD p mid ids => applyAddToMeld s p mid ids
  | .SWAP_JOKER p mid j r => applySwapJoker s p mid j r
  | .PASS_ACTION _ => some (applyPassAction s)
  | .DISCARD p ids => some (applyDiscard s p ids)

/-- applyAction from gameUtils.ts.  The result is none exactly when the source
would raise a TypeError; otherwise some of the (possibly mutated) state and the
returned ok / error record.  ensurePlayer checks the turn before the game-over
flag, in that order. -/
def applyAction (s : GameState) (a : Action) : Option (GameState × ActionResult) :=
  if a.player ≠ s.currentTurn then some (s, failRes "Not your turn.")
  else if s.phase = Phase.GAME_OVER then some (s, failRes "Game is over.")
  else applyActionBody s a

/-- initGame from gameUtils.ts, parameterized by the shuffled deck the external
deckFactory supplies. -/
def initGame (numPlayers : Nat) (deck : List CardDTO) : GameState :=
  let handFor : Fin 4 → List CardID := fun p =>
    if p.val < numPlayers then ((deck.drop (14 * p.val)).take 14).map (fun c => c.id) else []
  let drawOrder := (deck.drop (14 * numPlayers)).map (fun c => c.id)
  { numPlayers := numPlayers
    currentTurn := 0
    phase := Phase.DRAW
    winner := none
    deckCount := drawOrder.length
    discard := []
    lastDrawnCardId := none
    lastDrawSource := none
    cardsById := fun id => deck.reverse.find? (fun c => c.id == id)
    playersPublic := fun p => { opened := false, handCount := (handFor p).length }
    hands := handFor
    tableMelds := []
    drawOrder := drawOrder }

/-- The deckFactory contract: 106 cards with pairwise distinct ids. -/
def validDeck (deck : List CardDTO) : Prop :=
  deck.length = 106 ∧ (deck.map (fun c => c.id)).Nodup

def applyStep (s : GameState) (a : Action) : GameState :=
  match applyAction s a with
  | some (s1, _) => s1
  | none => s

def applySeq (s : GameState) (l : List Action) : GameState :=
  l.foldl applyStep s

/-- One reducer call that returned (whether ok or an error). -/
def stepTo (s s1 : GameState) : Prop :=
  ∃ a r, applyAction s a = some (s1, r)

inductive ReachableFrom (s0 : GameState) : GameState → Prop
  | refl : ReachableFrom s0 s0
  | step {s s1 : GameState} : ReachableFrom s0 s → stepTo s s1 → ReachableFrom s0 s1

/-- States obtained from initGame on a well-formed deck by any sequence of
applyAction calls that returned (ok or error). -/
def Reachable (s : GameState) : Prop :=
  ∃ np deck, 2 ≤ np ∧ np ≤ 4 ∧ validDeck deck ∧ ReachableFrom (initGame np deck) s

/-- Every CardID on the table, in every hand, in the draw order and discard pile. -/
def ledgerList (s : GameState) : List CardID :=
  ((List.finRange 4).map s.hands).flatten ++ s.drawOrder ++ s.discard ++
    (s.tableMelds.map (fun m => m.cardIds)).flatten

def ledger (s : GameState) : Multiset CardID :=
  (ledgerList s : Multiset CardID)

/-- The card composition the external deckFactory produces (two 52-card decks
without jokers, then 2 jokers), before shuffling; ids here are 0..105. -/
def factoryRanks : List Rank :=
  [Rank.TWO, Rank.THREE, Rank.FOUR, Rank.FIVE, Rank.SIX, Rank.SEVEN, Rank.EIGHT,
   Rank.NINE, Rank.TEN, Rank.JACK, Rank.QUEEN, Rank.KING, Rank.ACE]

def factoryDeck : List CardDTO :=
  ((List.range 2).flatMap (fun d =>
    (List.range 4).flatMap (fun si =>
      (List.range 13).map (fun ri =>
        ⟨d * 52 + si * 13 + ri, SUIT_ORDER.getD si Suit.JOKER, factoryRanks.getD ri Rank.JOKER⟩))))
  ++ [⟨104, Suit.JOKER, Rank.JOKER⟩, ⟨105, Suit.JOKER, Rank.JOKER⟩]

/-- A particular shuffle of the factory deck: player 0 is dealt a 59-point
spade run, the first joker (104), the 8 of clubs (6) and fillers; player 1 gets
low clubs and diamonds. -/
def bugHand0 : List CardID := [46, 47, 48, 49, 50, 51, 104, 6, 13, 14, 15, 16, 17, 18]

def bugHand1 : List CardID := [0, 1, 2, 3, 4, 5, 7, 8, 9, 10, 11, 12, 19, 20]

def bugDeck : List CardDTO :=
  (bugHand0 ++ bugHand1).filterMap (fun i => factoryDeck.find? (fun c => c.id == i))
  ++ factoryDeck.filter (fun c => !((bugHand0 ++ bugHand1).contains c.id))

def bugS0 : GameState := initGame 2 bugDeck

def bugS1 : GameState := applyStep bugS0 (Action.DRAW_DECK 0)

def bugS2 : GameState := applyStep bugS1 (Action.OPEN_GROUP 0 [46, 47, 48, 49, 50, 51])

def bugS3 : GameState := applyStep bugS2 (Action.DISCARD 0 [13])

def bugS4 : GameState := applyStep bugS3 (Action.DRAW_DECK 1)

def bugS5 : GameState := applyStep bugS4 (Action.PASS_ACTION 1)

def bugS6 : GameState := applyStep bugS5 (Action.DISCARD 1 [0])

def bugS7 : GameState := applyStep bugS6 (Action.DRAW_DECK 0)

/-- LAY_MELD with the joker id repeated: validateMeld accepts the duplicated
joker as a SET, and removeFromHand, finding the joker only once, executes
splice(-1, 1), silently deleting the last card of the hand. -/
def bugS8 : GameState := applyStep bugS7 (Action.LAY_MELD 0 [104, 104, 6])

theorem stepTo_applyStep (s : GameState) (a : Action)
    (h : (applyAction s a).isSome = true) : stepTo s (applyStep s a) := by
  unfold stepTo applyStep
  cases hm : applyAction s a with
  | none => rw [hm] at h; exact absurd h (by simp)
  | some pair => exact ⟨a, pair.2, by rw [hm]⟩


/-- C1: Card conservation fails on the code.  From initGame on a legitimate
106-card deck, after a legal opening, player 0 (opened, in ACTION phase) plays
LAY_MELD with the joker id 104 listed twice plus the 8 of clubs (id 6).
validateMeld accepts the duplicated joker as a SET, removeFromHand finds id 104
only once and its second splice(indexOf = -1, 1) deletes the last card of the
hand (id 102), so the call returns ok and the reachable successor state holds
joker 104 twice and card 102 nowhere: the CardID multiset is no longer the
106-card population and contains a duplicate. -/
theorem C1_conservation_violated :
    validDeck bugDeck ∧
    Reachable bugS8 ∧
    applyAction bugS7 (Action.LAY_MELD 0 [104, 104, 6]) = some (bugS8, okRes) ∧
    (ledgerList bugS0).count 104 = 1 ∧ (ledgerList bugS0).count 102 = 1 ∧
    (ledgerList bugS8).count 104 = 2 ∧ (ledgerList bugS8).count 102 = 0 ∧
    ledger bugS8 ≠ ledger bugS0 := by
  refine ⟨⟨by decide, by decide⟩, ?_, ?_, by decide, by decide, by decide, by decide, ?_⟩
  · refine ⟨2, bugDeck, by norm_num, by norm_num, ⟨by decide, by decide⟩, ?_⟩
    exact ReachableFrom.step
      (ReachableFrom.step
        (ReachableFrom.step
          (ReachableFrom.step
            (ReachableFrom.step
              (ReachableFrom.step
                (ReachableFrom.step
                  (ReachableFrom.step ReachableFrom.refl
                    (stepTo_applyStep bugS0 (Action.DRAW_DECK 0) (by decide)))
                  (stepTo_applyStep bugS1 (Action.OPEN_GROUP 0 [46, 47, 48, 49, 50, 51]) (by decide)))
                (stepTo_applyStep bugS2 (Action.DISCARD 0 [13]) (by decide)))
              (stepTo_applyStep bugS3 (Action.DRAW_DECK 1) (by decide)))
            (stepTo_applyStep bugS4 (Action.PASS_ACTION 1) (by decide)))
          (stepTo_applyStep bugS5 (Action.DISCARD 1 [0]) (by decide)))
        (stepTo_applyStep bugS6 (Action.DRAW_DECK 0) (by decide)))
      (stepTo_applyStep bugS7 (Action.LAY_MELD 0 [104, 104, 6]) (by decide))
  · rfl
  · intro h
    have hcount : (ledgerList bugS8).count 104 = (ledgerList bugS0).count 104 := by
      have h2 := congrArg (Multiset.count 104) h
      rwa [ledger, ledger, Multiset.coe_count, Multiset.coe_count] at h2
    rw [show (ledgerList bugS8).count 104 = 2 by decide,
      show (ledgerList bugS0).count 104 = 1 by decide] at hcount
    exact absurd hcount (by norm_num)

theorem applyAction_eq_body (s : GameState) (a : Action)
    (hturn : a.player = s.currentTurn) (hphase : s.phase ≠ Phase.GAME_OVER) :
    applyAction s a = applyActionBody s a := by
  rw [applyAction, if_neg (by simp [hturn]), if_neg hphase]

def resultError : Option (GameState × ActionResult) → Option String
  | some (_, r) => r.error
  | none => none

/-- validateMeld reports set or run failure only through its single combined
message. -/
theorem validateMeld_err_eq (cards : List CardDTO) (e : String)
    (h : validateMeld cards = .err e) : e = "Not a valid set or run." := by
  rw [validateMeld] at h
  split at h
  · exact absurd h (by simp)
  · split at h
    · exact absurd h (by simp)
    · split at h
      · exact absurd h (by simp)
      · exact (MeldValidation.err.inj h).symm

def Action.isDraw : Action → Bool
  | .DRAW_DECK _ | .DRAW_DISCARD _ => true
  | _ => false

def Action.isActionPhase : Action → Bool
  | .OPEN_GROUP _ _ | .OPEN_MULTI _ _ | .LAY_MELD _ _
  | .ADD_TO_MELD _ _ _ | .SWAP_JOKER _ _ _ _ | .PASS_ACTION _ => true
  | _ => false

def Action.isDiscardAction : Action → Bool
  | .DISCARD _ _ => true
  | _ => false

/-- A small literal state builder used for concrete scenarios: two players,
player 0 holding hand0, other hands empty. -/
def mkState (ph : Phase) (turn : Fin 4) (cards : List CardDTO) (hand0 : List CardID)
    (opened0 : Bool) (melds : List Meld) (lastDrawn : Option CardID)
    (lastSrc : Option DrawSource) (disc : List CardID) (dOrder : List CardID) : GameState :=
  { numPlayers := 2
    currentTurn := turn
    phase := ph
    winner := none
    deckCount := dOrder.length
    discard := disc
    lastDrawnCardId := lastDrawn
    lastDrawSource := lastSrc
    cardsById := fun id => cards.reverse.find? (fun c => c.id == id)
    playersPublic := fun p =>
      if p = 0 then { opened := opened0, handCount := hand0.length }
      else { opened := false, handCount := 0 }
    hands := fun p => if p = 0 then hand0 else []
    tableMelds := melds
    drawOrder := dOrder }

theorem fail_ne_ok {s s1 : GameState} {r : ActionResult} {e : String}
    (h : some (s, failRes e) = some (s1, r)) (hok : r.ok = true) : False := by
  simp only [Option.some.injEq, Prod.mk.injEq] at h
  rw [← h.2] at hok
  exact absurd hok (by simp [failRes])

theorem applyDrawDeck_wrong_phase (s : GameState) (p : Fin 4) (h : s.phase ≠ Phase.DRAW) :
    applyDrawDeck s p = (s, failRes "Not in DRAW phase.") := by
  rw [applyDrawDeck, if_pos h]

theorem applyDrawDiscard_wrong_phase (s : GameState) (p : Fin 4) (h : s.phase ≠ Phase.DRAW) :
    applyDrawDiscard s p = (s, failRes "Not in DRAW phase.") := by
  rw [applyDrawDiscard, if_pos h]

theorem applyOpenGroup_wrong_phase (s : GameState) (p : Fin 4) (ids : List CardID)
    (h : s.phase ≠ Phase.ACTION) :
    applyOpenGroup s p ids = some (s, failRes "Not in ACTION phase.") := by
  rw [applyOpenGroup, if_pos h]

theorem applyOpenMulti_wrong_phase (s : GameState) (p : Fin 4) (groups : List (List CardID))
    (h : s.phase ≠ Phase.ACTION) :
    applyOpenMulti s p groups = some (s, failRes "Not in ACTION phase.") := by
  rw [applyOpenMulti, if_pos h]

theorem applyLayMeld_wrong_phase (s : GameState) (p : Fin 4) (ids : List CardID)
    (h : s.phase ≠ Phase.ACTION) :
    applyLayMeld s p ids = some (s, failRes "Not in ACTION phase.") := by
  rw [applyLayMeld, if_pos h]

theorem applyAddToMeld_wrong_phase (s : GameState) (p : Fin 4) (mid : Nat) (ids : List CardID)
    (h : s.phase ≠ Phase.ACTION) :
    applyAddToMeld s p mid ids = some (s, failRes "Not in ACTION phase.") := by
  rw [applyAddToMeld, if_pos h]

theorem applySwapJoker_wrong_phase (s : GameState) (p : Fin 4) (mid : Nat) (j r : CardID)
    (h : s.phase ≠ Phase.ACTION) :
    applySwapJoker s p mid j r = some (s, failRes "Not in ACTION phase.") := by
  rw [applySwapJoker, if_pos h]

theorem applyPassAction_wrong_phase (s : GameState) (h : s.phase ≠ Phase.ACTION) :
    applyPassAction s = (s, failRes "Not in ACTION phase.") := by
  rw [applyPassAction, if_pos h]

theorem applyDiscard_wrong_phase (s : GameState) (p : Fin 4) (ids : List CardID)
    (h : s.phase ≠ Phase.DISCARD) :
    applyDiscard s p ids = (s, failRes "Not in DISCARD phase.") := by
  rw [applyDiscard, if_pos h]

/-- C7 (amended): in phase DRAW only the two draw actions can return ok, in
ACTION only the six action-phase actions, in DISCARD only DISCARD; and once
phase is GAME_OVER every call fails leaving the state unchanged, with the error
"Game is over." for the current player but "Not your turn." for any other
player (ensurePlayer tests the turn first). -/
theorem C7_phase_gating :
    (∀ s a s1 r, applyAction s a = some (s1, r) → r.ok = true →
      s.phase = Phase.DRAW → a.isDraw = true) ∧
    (∀ s a s1 r, applyAction s a = some (s1, r) → r.ok = true →
      s.phase = Phase.ACTION → a.isActionPhase = true) ∧
    (∀ s a s1 r, applyAction s a = some (s1, r) → r.ok = true →
      s.phase = Phase.DISCARD → a.isDiscardAction = true) ∧
    (∀ s a, s.phase = Phase.GAME_OVER →
      applyAction s a =
        some (s, failRes
          (if a.player = s.currentTurn then "Game is over." else "Not your turn."))) := by
  refine ⟨?_, ?_, ?_, ?_⟩
  · intro s a s1 r h hok hphase
    rw [applyAction] at h
    split at h
    · exact (fail_ne_ok h hok).elim
    split at h
    · exact (fail_ne_ok h hok).elim
    cases a with
    | DRAW_DECK p => rfl
    | DRAW_DISCARD p => rfl
    | OPEN_GROUP p ids =>
      simp only [applyActionBody] at h
      rw [applyOpenGroup_wrong_phase s p ids (by rw [hphase]; decide)] at h
      exact (fail_ne_ok h hok).elim
    | OPEN_MULTI p groups =>
      simp only [applyActionBody] at h
      rw [applyOpenMulti_wrong_phase s p groups (by rw [hphase]; decide)] at h
      exact (fail_ne_ok h hok).elim
    | LAY_MELD p ids =>
      simp only [applyActionBody] at h
      rw [applyLayMeld_wrong_phase s p ids (by rw [hphase]; decide)] at h
      exact (fail_ne_ok h hok).elim
    | ADD_TO_MELD p mid ids =>
      simp only [applyActionBody] at h
      rw [applyAddToMeld_wrong_phase s p mid ids (by rw [hphase]; decide)] at h
      exact (fail_ne_ok h hok).elim
    | SWAP_JOKER p mid j rep =>
      simp only [applyActionBody] at h
      rw [applySwapJoker_wrong_phase s p mid j rep (by rw [hphase]; decide)] at h
      exact (fail_ne_ok h hok).elim
    | PASS_ACTION p =>
      simp only [applyActionBody] at h
      rw [applyPassAction_wrong_phase s (by rw [hphase]; decide)] at h
      exact (fail_ne_ok h hok).elim
    | DISCARD p ids =>
      simp only [applyActionBody] at h
      rw [applyDiscard_wrong_phase s p ids (by rw [hphase]; decide)] at h
      exact (fail_ne_ok h hok).elim
  · intro s a s1 r h hok hphase
    rw [applyAction] at h
    split at h
    · exact (fail_ne_ok h hok).elim
    split at h
    · exact (fail_ne_ok h hok).elim
    cases a with
    | DRAW_DECK p =>
      simp only [applyActionBody] at h
      rw [applyDrawDeck_wrong_phase s p (by rw [hphase]; decide)] at h
      exact (fail_ne_ok h hok).elim
    | DRAW_DISCARD p =>
      simp only [applyActionBody] at h
      rw [applyDrawDiscard_wrong_phase s p (by rw [hphase]; decide)] at h
      exact (fail_ne_ok h hok).elim
    | DISCARD p ids =>
      simp only [applyActionBody] at h
      rw [applyDiscard_wrong_phase s p ids (by rw [hphase]; decide)] at h
      exact (fail_ne_ok h hok).elim
    | OPEN_GROUP p ids => rfl
    | OPEN_MULTI p groups => rfl
    | LAY_MELD p ids => rfl
    | ADD_TO_MELD p mid ids => rfl
    | SWAP_JOKER p mid j rep => rfl
    | PASS_ACTION p => rfl
  · intro s a s1 r h hok hphase
    rw [applyAction] at h
    split at h
    · exact (fail_ne_ok h hok).elim
    split at h
    · exact (fail_ne_ok h hok).elim
    cases a with
    | DISCARD p ids => rfl
    | DRAW_DECK p =>
      simp only [applyActionBody] at h
      rw [applyDrawDeck_wrong_phase s p (by rw [hphase]; decide)] at h
      exact (fail_ne_ok h hok).elim
    | DRAW_DISCARD p =>
      simp only [applyActionBody] at h
      rw [applyDrawDiscard_wrong_phase s p (by rw [hphase]; decide)] at h
      exact (fail_ne_ok h hok).elim
    | OPEN_GROUP p ids =>
      simp only [applyActionBody] at h
      rw [applyOpenGroup_wrong_phase s p ids (by rw [hphase]; decide)] at h
      exact (fail_ne_ok h hok).elim
    | OPEN_MULTI p groups =>
      simp only [applyActionBody] at h
      rw [applyOpenMulti_wrong_phase s p groups (by rw [hphase]; decide)] at h
      exact (fail_ne_ok h hok).elim
    | LAY_MELD p ids =>
      simp only [applyActionBody] at h
      rw [applyLayMeld_wrong_phase s p ids (by rw [hphase]; decide)] at h
      exact (fail_ne_ok h hok).elim
    | ADD_TO_MELD p mid ids =>
      simp only [applyActionBody] at h
      rw [applyAddToMeld_wrong_phase s p mid ids (by rw [hphase]; decide)] at h
      exact (fail_ne_ok h hok).elim
    | SWAP_JOKER p mid j rep =>
      simp only [applyActionBody] at h
      rw [applySwapJoker_wrong_phase s p mid j rep (by rw [hphase]; decide)] at h
      exact (fail_ne_ok h hok).elim
    | PASS_ACTION p =>
      simp only [applyActionBody] at h
      rw [applyPassAction_wrong_phase s (by rw [hphase]; decide)] at h
      exact (fail_ne_ok h hok).elim
  · intro s a hphase
    rw [applyAction]
    by_cases hpe : a.player = s.currentTurn
    · rw [if_neg (by simp [hpe]), if_pos hphase, if_pos hpe]
    · rw [if_pos (by simp [hpe]), if_neg hpe]

def gameOverState : GameState := mkState Phase.GAME_OVER 0 [] [] false [] none none [] []

/-- C7 counterexample: in a GAME_OVER state a call by a non-current player
fails with "Not your turn.", not with "Game is over." as the claim states. -/
theorem C7_gameover_message_cex :
    applyAction gameOverState (Action.PASS_ACTION 1) =
      some (gameOverState, failRes "Not your turn.") ∧
    failRes "Not your turn." ≠ failRes "Game is over." := by
  exact ⟨rfl, by decide⟩

def drawState : GameState := mkState Phase.DRAW 0 [] [] false [] none none [] [7]

theorem C7_phase_gating_witness :
    Action.isDraw (Action.DRAW_DECK (0 : Fin 4)) = true ∧
    applyAction gameOverState (Action.PASS_ACTION 0) =
      some (gameOverState, failRes "Game is over.") := by
  constructor
  · exact C7_phase_gating.1 drawState (Action.DRAW_DECK 0)
      (applyStep drawState (Action.DRAW_DECK 0)) okRes (by rfl) rfl rfl
  · have h := C7_phase_gating.2.2.2 gameOverState (Action.PASS_ACTION 0) rfl
    simpa using h

def aceRunCards : List CardDTO :=
  [⟨0, Suit.SPADES, Rank.ACE⟩, ⟨1, Suit.SPADES, Rank.TWO⟩, ⟨2, Suit.SPADES, Rank.THREE⟩]

/-- C3: validateMeld tries SET, then RUN under ace-LOW, then RUN under ace-HIGH
and returns the first success (falling back to the combined failure); on
[A spades, 2 spades, 3 spades] it returns a LOW run in hand order while the
forced HIGH interpretation fails. -/
theorem C3_decision_order :
    (∀ cards v, validateSet cards = .ok v → validateMeld cards = .ok v) ∧
    (∀ cards e v, validateSet cards = .err e → validateRun cards AceMode.LOW = .ok v →
      validateMeld cards = .ok v) ∧
    (∀ cards e1 e2 v, validateSet cards = .err e1 → validateRun cards AceMode.LOW = .err e2 →
      validateRun cards AceMode.HIGH = .ok v → validateMeld cards = .ok v) ∧
    (∀ cards e1 e2 e3, validateSet cards = .err e1 → validateRun cards AceMode.LOW = .err e2 →
      validateRun cards AceMode.HIGH = .err e3 →
      validateMeld cards = .err "Not a valid set or run.") ∧
    validateMeld aceRunCards = .ok ⟨MeldKind.RUN, some AceMode.LOW, [0, 1, 2], []⟩ ∧
    (validateRun aceRunCards AceMode.HIGH).isOk = false := by
  refine ⟨?_, ?_, ?_, ?_, by decide, by decide⟩
  · intro cards v h; rw [validateMeld, h]
  · intro cards e v hs hl; rw [validateMeld, hs, hl]
  · intro cards e1 e2 v hs hl hh; rw [validateMeld, hs, hl, hh]
  · intro cards e1 e2 e3 hs hl hh; rw [validateMeld, hs, hl, hh]

def eightSetCards : List CardDTO :=
  [⟨10, Suit.CLUBS, Rank.EIGHT⟩, ⟨11, Suit.DIAMONDS, Rank.EIGHT⟩, ⟨13, Suit.HEARTS, Rank.EIGHT⟩]

theorem C3_decision_order_witness :
    validateMeld eightSetCards = .ok ⟨MeldKind.SET, none, [10, 11, 13], []⟩ ∧
    validateMeld aceRunCards = .ok ⟨MeldKind.RUN, some AceMode.LOW, [0, 1, 2], []⟩ := by
  constructor
  · exact C3_decision_order.1 eightSetCards ⟨MeldKind.SET, none, [10, 11, 13], []⟩ (by decide)
  · exact C3_decision_order.2.1 aceRunCards "Set ranks must match."
      ⟨MeldKind.RUN, some AceMode.LOW, [0, 1, 2], []⟩ (by decide) (by decide)

def c9Cards : List CardDTO :=
  [⟨20, Suit.CLUBS, Rank.TEN⟩, ⟨21, Suit.DIAMONDS, Rank.TEN⟩, ⟨22, Suit.HEARTS, Rank.TEN⟩,
   ⟨99, Suit.SPADES, Rank.FIVE⟩, ⟨23, Suit.SPADES, Rank.TWO⟩]

def c9DiscardState : GameState :=
  mkState Phase.ACTION 0 c9Cards [20, 21, 22, 99, 23] false [] (some 99)
    (some DrawSource.DISCARD) [] []

/-- C9 counterexample: an unopened current player in ACTION phase whose last
draw came from the discard pile proposes a 30-point OPEN_GROUP without the
drawn card; the call fails, but with the discard-drawn inclusion error, not
with "Need 51+ points to open." as the claim requires. -/
theorem C9_open_threshold_cex :
    applyAction c9DiscardState (Action.OPEN_GROUP 0 [20, 21, 22]) =
      some (c9DiscardState, failRes "Opening group must include the discard-drawn card.") ∧
    "Opening group must include the discard-drawn card." ≠ "Need 51+ points to open." := by
  exact ⟨rfl, by decide⟩

/-- C9 (amended): when the unopened current player in ACTION phase submits an
OPEN_GROUP that passes the discard-drawn inclusion rule (for example because
the last draw came from the deck) and whose cards total fewer than 51 points,
applyAction rejects with "Need 51+ points to open." and the state (hence the
hand) is unchanged. -/
theorem C9_open_threshold (s : GameState) (p : Fin 4) (ids : List CardID) (pts : Nat)
    (hturn : p = s.currentTurn) (hphase : s.phase = Phase.ACTION)
    (hopen : (s.playersPublic p).opened = false)
    (hdrawn : discardDrawnError s ids "Opening group must include the discard-drawn card." = none)
    (hpts : groupPoints ids s.cardsById = some pts) (hlt : pts < 51) :
    applyAction s (Action.OPEN_GROUP p ids) = some (s, failRes "Need 51+ points to open.") := by
  rw [applyAction_eq_body s (Action.OPEN_GROUP p ids) hturn (by rw [hphase]; decide)]
  show applyOpenGroup s p ids = _
  rw [applyOpenGroup, if_neg (by rw [hphase]; decide), if_neg (by rw [hopen]; decide)]
  split
  · next e heq => rw [hdrawn] at heq; cases heq
  · split
    · next heq => rw [hpts] at heq; cases heq
    · next pts2 heq =>
      rw [hpts] at heq
      cases heq
      rw [if_pos hlt]

def c9DeckState : GameState :=
  mkState Phase.ACTION 0 c9Cards [20, 21, 22, 99, 23] false [] (some 99)
    (some DrawSource.DECK) [] []

theorem C9_open_threshold_witness :
    applyAction c9DeckState (Action.OPEN_GROUP 0 [20, 21, 22]) =
      some (c9DeckState, failRes "Need 51+ points to open.") :=
  C9_open_threshold c9DeckState 0 [20, 21, 22] 30 rfl rfl rfl (by decide) (by decide)
    (by decide)

theorem discardDrawnError_some_self_iff (s : GameState) (ids : List CardID) (msg : String)
    (hmsg : msg ≠ "No drawn card recorded.") :
    discardDrawnError s ids msg = some msg ↔
      (s.lastDrawSource = some DrawSource.DISCARD ∧
        ∃ c, s.lastDrawnCardId = some c ∧ ids.contains c = false) := by
  rw [discardDrawnError]
  split
  · next hsrc =>
    split
    · next hdrawn =>
      constructor
      · intro h; exact absurd (Option.some.inj h) hmsg.symm
      · rintro ⟨-, c, hc, -⟩; rw [hdrawn] at hc; cases hc
    · next c hdrawn =>
      by_cases hin : ids.contains c = true
      · rw [if_pos hin]
        constructor
        · intro h; cases h
        · rintro ⟨-, c2, hc2, hnotin⟩
          rw [hdrawn] at hc2
          cases hc2
          rw [hin] at hnotin
          cases hnotin
      · rw [if_neg hin]
        simp only [Bool.not_eq_true] at hin
        exact ⟨fun _ => ⟨hsrc, c, hdrawn, hin⟩, fun _ => rfl⟩
  · next hsrc =>
    constructor
    · intro h; cases h
    · rintro ⟨hdisc, -⟩; exact absurd hdisc hsrc

theorem firstErr_some {vs : List MeldValidation} {e : String}
    (h : firstErr vs = some e) : MeldValidation.err e ∈ vs := by
  induction vs with
  | nil => cases h
  | cons v rest ih =>
    cases v with
    | err e2 =>
      simp only [firstErr] at h
      rw [Option.some.injEq] at h
      rw [h]
      exact List.mem_cons_self _ _
    | ok mv =>
      simp only [firstErr] at h
      exact List.mem_cons_of_mem _ (ih h)

theorem validateGroups_mem (s : GameState) :
    ∀ (groups : List (List CardID)) (vs : List MeldValidation),
      validateGroups s groups = some vs → ∀ v ∈ vs, ∃ g ∈ groups, validateGroup s g = some v := by
  intro groups
  induction groups with
  | nil =>
    intro vs h v hv
    rw [validateGroups] at h
    rw [← Option.some.inj h] at hv
    cases hv
  | cons g rest ih =>
    intro vs h v hv
    rw [validateGroups] at h
    split at h
    · cases h
    · next v0 hv0 =>
      split at h
      · cases h
      · next vs0 hvs0 =>
        rw [← Option.some.inj h] at hv
        cases hv with
        | head => exact ⟨g, List.mem_cons_self _ _, hv0⟩
        | tail _ hmem =>
          obtain ⟨g2, hg2, hval⟩ := ih vs0 hvs0 v hmem
          exact ⟨g2, List.mem_cons_of_mem _ hg2, hval⟩

theorem validateGroup_err (s : GameState) (g : List CardID) (e : String)
    (h : validateGroup s g = some (.err e)) :
    e = "Each group must have 3+ cards." ∨ e = "Not a valid set or run." := by
  rw [validateGroup] at h
  split at h
  · left
    exact (MeldValidation.err.inj (Option.some.inj h)).symm
  · right
    rw [Option.map_eq_some'] at h
    obtain ⟨dtos, -, hv⟩ := h
    exact validateMeld_err_eq dtos e hv

def resultOk : Option (GameState × ActionResult) → Bool
  | some (_, r) => r.ok
  | none => false

def c6Cards : List CardDTO :=
  [⟨30, Suit.SPADES, Rank.NINE⟩, ⟨31, Suit.SPADES, Rank.TEN⟩, ⟨32, Suit.SPADES, Rank.JACK⟩,
   ⟨33, Suit.SPADES, Rank.QUEEN⟩, ⟨34, Suit.SPADES, Rank.KING⟩, ⟨35, Suit.SPADES, Rank.ACE⟩,
   ⟨40, Suit.HEARTS, Rank.TWO⟩, ⟨41, Suit.HEARTS, Rank.THREE⟩]

def c6State : GameState :=
  mkState Phase.ACTION 0 c6Cards [30, 31, 32, 33, 34, 35, 40, 41] false [] (some 40)
    (some DrawSource.DECK) [] []

/-- C6: an OPEN_GROUP (or OPEN_MULTI) rejected with the discard-drawn-card
error happens exactly when the last draw came from the discard pile and the
recorded drawn card is missing from the proposed cards; and with
lastDrawSource = DECK an otherwise-legal opening that omits the drawn card
succeeds (shown on a concrete 59-point spade run with drawn card 40 omitted),
for both OPEN_GROUP and OPEN_MULTI. -/
theorem C6_discard_drawn_asymmetry :
    (∀ s p ids, p = s.currentTurn → s.phase = Phase.ACTION →
      (s.playersPublic p).opened = false →
      (resultError (applyAction s (Action.OPEN_GROUP p ids)) =
          some "Opening group must include the discard-drawn card." ↔
        (s.lastDrawSource = some DrawSource.DISCARD ∧
          ∃ c, s.lastDrawnCardId = some c ∧ ids.contains c = false))) ∧
    (∀ s p groups, p = s.currentTurn → s.phase = Phase.ACTION →
      (s.playersPublic p).opened = false → ¬ groups.length < 1 → groups.flatten.Nodup →
      (resultError (applyAction s (Action.OPEN_MULTI p groups)) =
          some "Opening must include the discard-drawn card." ↔
        (s.lastDrawSource = some DrawSource.DISCARD ∧
          ∃ c, s.lastDrawnCardId = some c ∧ groups.flatten.contains c = false))) ∧
    (resultOk (applyAction c6State (Action.OPEN_GROUP 0 [30, 31, 32, 33, 34, 35])) = true ∧
      ([30, 31, 32, 33, 34, 35] : List CardID).contains 40 = false ∧
      c6State.lastDrawSource = some DrawSource.DECK ∧ c6State.lastDrawnCardId = some 40) ∧
    resultOk (applyAction c6State (Action.OPEN_MULTI 0 [[30, 31, 32, 33, 34, 35]])) = true := by
  refine ⟨?_, ?_, ⟨by decide, by decide, by decide, by decide⟩, by decide⟩
  · intro s p ids hturn hphase hopen
    rw [applyAction_eq_body s (Action.OPEN_GROUP p ids)
      (show (Action.OPEN_GROUP p ids).player = s.currentTurn from hturn)
      (by rw [hphase]; decide)]
    show resultError (applyOpenGroup s p ids) = _ ↔ _
    rw [applyOpenGroup, if_neg (by rw [hphase]; decide), if_neg (by rw [hopen]; decide)]
    constructor
    · intro h
      split at h
      · next e heq =>
        simp only [resultError, failRes] at h
        rw [Option.some.injEq] at h
        rw [h] at heq
        exact (discardDrawnError_some_self_iff s ids _ (by decide)).mp heq
      · exfalso
        split at h
        · simp [resultError] at h
        · split at h
          · simp only [resultError, failRes] at h
            exact absurd h (by decide)
          · split at h
            · simp only [resultError, failRes] at h
              exact absurd h (by decide)
            · split at h
              · simp [resultError] at h
              · split at h
                · next e2 heq4 =>
                  simp only [resultError, failRes] at h
                  rw [Option.some.injEq] at h
                  rw [h] at heq4
                  have h2 := validateMeld_err_eq _ _ heq4
                  exact absurd h2 (by decide)
                · split at h
                  · simp only [resultError, failRes] at h
                    exact absurd h (by decide)
                  · simp [resultError, okRes] at h
    · intro hrhs
      have hdd := (discardDrawnError_some_self_iff s ids
        "Opening group must include the discard-drawn card." (by decide)).mpr hrhs
      rw [hdd]
      rfl
  · intro s p groups hturn hphase hopen hlen hnodup
    rw [applyAction_eq_body s (Action.OPEN_MULTI p groups)
      (show (Action.OPEN_MULTI p groups).player = s.currentTurn from hturn)
      (by rw [hphase]; decide)]
    show resultError (applyOpenMulti s p groups) = _ ↔ _
    rw [applyOpenMulti, if_neg (by rw [hphase]; decide), if_neg (by rw [hopen]; decide),
      if_neg hlen, if_neg (not_not_intro hnodup)]
    constructor
    · intro h
      split at h
      · next e heq =>
        simp only [resultError, failRes] at h
        rw [Option.some.injEq] at h
        rw [h] at heq
        exact (discardDrawnError_some_self_iff s groups.flatten _ (by decide)).mp heq
      · exfalso
        split at h
        · simp only [resultError, failRes] at h
          exact absurd h (by decide)
        · split at h
          · simp only [resultError, failRes] at h
            exact absurd h (by decide)
          · split at h
            · simp [resultError] at h
            · split at h
              · simp only [resultError, failRes] at h
                exact absurd h (by decide)
              · split at h
                · simp [resultError] at h
                · next validations hvals =>
                  split at h
                  · next e heq4 =>
                    simp only [resultError, failRes] at h
                    rw [Option.some.injEq] at h
                    rw [h] at heq4
                    have hmem := firstErr_some heq4
                    obtain ⟨g, -, hval⟩ := validateGroups_mem s groups validations hvals _ hmem
                    cases validateGroup_err s g _ hval with
                    | inl h1 => exact absurd h1 (by decide)
                    | inr h1 => exact absurd h1 (by decide)
                  · split at h
                    · simp only [resultError, failRes] at h
                      exact absurd h (by decide)
                    · simp [resultError, okRes] at h
    · intro hrhs
      have hdd := (discardDrawnError_some_self_iff s groups.flatten
        "Opening must include the discard-drawn card." (by decide)).mpr hrhs
      rw [hdd]
      rfl

def c6DiscardState : GameState :=
  mkState Phase.ACTION 0 c6Cards [30, 31, 32, 33, 34, 35, 40, 41] false [] (some 40)
    (some DrawSource.DISCARD) [] []

theorem C6_discard_drawn_asymmetry_witness :
    resultError (applyAction c6DiscardState (Action.OPEN_GROUP 0 [30, 31, 32, 33, 34, 35])) =
      some "Opening group must include the discard-drawn card." := by
  exact (C6_discard_drawn_asymmetry.1 c6DiscardState 0 [30, 31, 32, 33, 34, 35]
    rfl rfl (by decide)).mpr ⟨rfl, 40, rfl, by decide⟩

theorem removeOne_of_contains {hand : List CardID} {id : CardID}
    (h : hand.contains id = true) : removeOne hand id = hand.erase id := by
  rw [removeOne, if_pos h]

theorem foldl_removeOne_add (ids : List CardID) :
    ∀ hand : List CardID, ids.Nodup → (∀ i ∈ ids, i ∈ hand) →
      ((ids.foldl removeOne hand : List CardID) : Multiset CardID) + (↑ids : Multiset CardID) =
        (↑hand : Multiset CardID) := by
  induction ids with
  | nil => intro hand _ _; simp
  | cons i rest ih =>
    intro hand hnd hmem
    have hi : i ∈ hand := hmem i (List.mem_cons_self i rest)
    rw [List.foldl_cons, removeOne_of_contains (by simpa using hi)]
    have hIH := ih (hand.erase i) (List.nodup_cons.mp hnd).2 (fun x hx =>
      (List.mem_erase_of_ne (fun hxi => (List.nodup_cons.mp hnd).1
        (by rw [← hxi]; exact hx))).mpr (hmem x (List.mem_cons_of_mem i hx)))
    rw [← Multiset.cons_coe, Multiset.add_cons, hIH, ← Multiset.coe_erase, Multiset.cons_erase]
    simpa using hi

/-- The state removeFromHand returns when every id is present. -/
def removedState (s : GameState) (p : Fin 4) (cardIds : List CardID) : GameState :=
  { s with
    hands := Function.update s.hands p (cardIds.foldl removeOne (s.hands p))
    playersPublic := Function.update s.playersPublic p
      { s.playersPublic p with handCount := (cardIds.foldl removeOne (s.hands p)).length } }

theorem removeFromHand_eq_some (s : GameState) (p : Fin 4) (cardIds : List CardID)
    (hin : cardIds.all (fun id => (s.hands p).contains id) = true) :
    removeFromHand s p cardIds = some (removedState s p cardIds) := by
  rw [removeFromHand, if_pos hin]
  rfl

theorem updateMeld_find_eq_self (mid : Nat) (f : Meld → Meld) :
    ∀ (melds : List Meld) (meld : Meld),
      melds.find? (fun m => m.mid == mid) = some meld → f meld = meld →
      updateMeld melds mid f = melds := by
  intro melds
  induction melds with
  | nil => intro meld hfind _; cases hfind
  | cons m rest ih =>
    intro meld hfind hf
    by_cases hm : (m.mid == mid) = true
    · rw [@List.find?_cons_of_pos _ (fun m => m.mid == mid) m rest hm] at hfind
      rw [updateMeld, if_pos hm, Option.some.inj hfind, hf]
    · rw [@List.find?_cons_of_neg _ (fun m => m.mid == mid) m rest hm] at hfind
      rw [updateMeld, if_neg hm, ih meld hfind hf]

theorem updateMeld_comp (mid : Nat) (f g : Meld → Meld)
    (hpres : ∀ m, (f m).mid = m.mid) :
    ∀ melds : List Meld,
      updateMeld (updateMeld melds mid f) mid g = updateMeld melds mid (fun m => g (f m)) := by
  intro melds
  induction melds with
  | nil => rfl
  | cons m rest ih =>
    by_cases hm : (m.mid == mid) = true
    · rw [updateMeld, if_pos hm]
      rw [updateMeld, if_pos (by rw [hpres m]; exact hm)]
      rw [updateMeld, if_pos hm]
    · rw [updateMeld, if_neg hm]
      rw [updateMeld, if_neg hm]
      rw [updateMeld, if_neg hm, ih]

/-- The state the failed SWAP_JOKER path leaves behind: the replacement card
removed and re-appended, the joker pushed and removed again, and the meld
swapped forward and back. -/
def swapRollbackState (s : GameState) (p : Fin 4) (mid : Nat)
    (jokerId replaceWithId : CardID) (meld : Meld) : GameState :=
  let s1 := removedState s p [replaceWithId]
  let swappedIds := meld.cardIds.map (fun id => if id = jokerId then replaceWithId else id)
  let melds2 := updateMeld s1.tableMelds mid (fun m => { m with cardIds := swappedIds })
  let s2 := { s1 with tableMelds := melds2 }
  let h3 := s2.hands p ++ [jokerId]
  let pub3 := Function.update s2.playersPublic p
    { s2.playersPublic p with handCount := h3.length }
  let s3 := { s2 with hands := Function.update s2.hands p h3, playersPublic := pub3 }
  let h4 := (s3.hands p).erase jokerId ++ [replaceWithId]
  let pub4 := Function.update s3.playersPublic p
    { s3.playersPublic p with handCount := h4.length }
  let melds4 := updateMeld s3.tableMelds mid (fun m =>
    { m with cardIds := m.cardIds.map (fun id => if id = replaceWithId then jokerId else id) })
  { s3 with hands := Function.update s3.hands p h4, playersPublic := pub4, tableMelds := melds4 }

def c2Cards : List CardDTO :=
  [⟨50, Suit.CLUBS, Rank.EIGHT⟩, ⟨51, Suit.DIAMONDS, Rank.EIGHT⟩, ⟨52, Suit.HEARTS, Rank.EIGHT⟩,
   ⟨53, Suit.SPADES, Rank.TWO⟩, ⟨54, Suit.HEARTS, Rank.FIVE⟩, ⟨55, Suit.HEARTS, Rank.SIX⟩]

def c2Meld : Meld := ⟨0, 0, [50, 51, 52], MeldKind.SET, none, []⟩

def c2State : GameState :=
  mkState Phase.ACTION 0 c2Cards [53, 54, 55] true [c2Meld] none none [] []

/-- C2 counterexample: ADD_TO_MELD of the 2 of spades (id 53, first in the
hand) onto a set of 8s fails revalidation and is rolled back, but the rollback
re-appends the removed card at the end of the hand, so the hand sequence
changes from [53, 54, 55] to [54, 55, 53]: not byte-for-byte identical. -/
theorem C2_rollback_sequence_cex :
    applyAction c2State (Action.ADD_TO_MELD 0 0 [53]) =
      some (applyStep c2State (Action.ADD_TO_MELD 0 0 [53]), failRes "Not a valid set or run.") ∧
    (applyStep c2State (Action.ADD_TO_MELD 0 0 [53])).hands 0 = [54, 55, 53] ∧
    c2State.hands 0 = [53, 54, 55] ∧
    (applyStep c2State (Action.ADD_TO_MELD 0 0 [53])).hands 0 ≠ c2State.hands 0 :=
  ⟨rfl, by decide, by decide, by decide⟩

/-- C2 (amended): a failed ADD_TO_MELD or SWAP_JOKER revalidation returns
ok=false with the validation error and restores the acting player hand as a
multiset (the removed cards are re-appended at the end, so the sequence order
may differ) and leaves the table melds, in particular the target meld,
unchanged.  For ADD_TO_MELD the submitted ids must be duplicate-free and held
(otherwise removeFromHand itself corrupts the hand, see the C1 development);
for SWAP_JOKER the replacement card must be held and not already on the meld. -/
theorem C2_rollback_atomicity :
    (∀ s p mid ids meld e dtos,
      p = s.currentTurn → s.phase = Phase.ACTION → (s.playersPublic p).opened = true →
      s.tableMelds.find? (fun m => m.mid == mid) = some meld →
      ¬ ((s.hands p).length - ids.length < 1) →
      ids.all (fun id => (s.hands p).contains id) = true →
      ids.Nodup →
      lookupAll s.cardsById (meld.cardIds ++ ids) = some dtos →
      validateMeld dtos = .err e →
      ∃ s2, applyAction s (Action.ADD_TO_MELD p mid ids) = some (s2, failRes e) ∧
        (s2.hands p).Perm (s.hands p) ∧ s2.tableMelds = s.tableMelds) ∧
    (∀ s p mid jokerId replaceWithId meld rep replaceDto e dtos,
      p = s.currentTurn → s.phase = Phase.ACTION → (s.playersPublic p).opened = true →
      s.tableMelds.find? (fun m => m.mid == mid) = some meld →
      meld.cardIds.contains jokerId = true →
      List.lookup jokerId meld.jokerMap = some rep →
      s.cardsById replaceWithId = some replaceDto →
      ¬ (replaceDto.rank ≠ rep.rank ∨ replaceDto.suit ≠ rep.suit) →
      (s.hands p).contains replaceWithId = true →
      lookupAll s.cardsById
        (meld.cardIds.map (fun id => if id = jokerId then replaceWithId else id)) = some dtos →
      validateMeld dtos = .err e →
      ¬ replaceWithId ∈ meld.cardIds →
      ∃ s2, applyAction s (Action.SWAP_JOKER p mid jokerId replaceWithId) =
          some (s2, failRes e) ∧
        (s2.hands p).Perm (s.hands p) ∧ s2.tableMelds = s.tableMelds) := by
  constructor
  · intro s p mid ids meld e dtos hturn hphase hopen hfind hkeep hin hnodup hlookup hval
    refine ⟨addBackToHand (removedState s p ids) p ids, ?_, ?_, ?_⟩
    · rw [applyAction_eq_body s (Action.ADD_TO_MELD p mid ids)
        (show (Action.ADD_TO_MELD p mid ids).player = s.currentTurn from hturn)
        (by rw [hphase]; decide)]
      show applyAddToMeld s p mid ids = _
      rw [applyAddToMeld, if_neg (by rw [hphase]; decide), if_neg (by rw [hopen]; decide)]
      simp only [hfind]
      rw [if_neg hkeep]
      simp only [removeFromHand_eq_some s p ids hin, hlookup, hval]
    · have haddback : (addBackToHand (removedState s p ids) p ids).hands p =
          (removedState s p ids).hands p ++ ids := by
        show Function.update ((removedState s p ids).hands) p
          ((removedState s p ids).hands p ++ ids) p = _
        rw [Function.update_same]
      have hh : (removedState s p ids).hands p = ids.foldl removeOne (s.hands p) := by
        show Function.update s.hands p (ids.foldl removeOne (s.hands p)) p = _
        rw [Function.update_same]
      rw [haddback, hh, ← Multiset.coe_eq_coe, ← Multiset.coe_add]
      exact foldl_removeOne_add ids (s.hands p) hnodup
        (fun i hi => by
          have := List.all_eq_true.mp hin i hi
          simpa using this)
    · rfl
  · intro s p mid jokerId replaceWithId meld rep replaceDto e dtos
      hturn hphase hopen hfind hjin hrep hdto hmatch hrin hlookup hval hrnm
    have hin1 : [replaceWithId].all (fun id => (s.hands p).contains id) = true := by
      simpa using hrin
    refine ⟨swapRollbackState s p mid jokerId replaceWithId meld, ?_, ?_, ?_⟩
    · rw [applyAction_eq_body s (Action.SWAP_JOKER p mid jokerId replaceWithId)
        (show (Action.SWAP_JOKER p mid jokerId replaceWithId).player = s.currentTurn from hturn)
        (by rw [hphase]; decide)]
      show applySwapJoker s p mid jokerId replaceWithId = _
      rw [applySwapJoker, if_neg (by rw [hphase]; decide), if_neg (by rw [hopen]; decide)]
      simp only [hfind]
      rw [if_neg (by rw [hjin]; decide)]
      simp only [hrep, hdto]
      rw [if_neg hmatch]
      have hcards : (removedState s p [replaceWithId]).cardsById = s.cardsById := rfl
      simp only [removeFromHand_eq_some s p [replaceWithId] hin1, hcards, hlookup, hval]
      rfl
    · have h1 : (swapRollbackState s p mid jokerId replaceWithId meld).hands p =
          (((s.hands p).erase replaceWithId ++ [jokerId]).erase jokerId ++ [replaceWithId]) := by
        simp only [swapRollbackState, removedState, Function.update_same]
        rw [List.foldl_cons, List.foldl_nil, removeOne_of_contains hrin]
      rw [h1]
      have hstep1 : (((s.hands p).erase replaceWithId ++ [jokerId]).erase jokerId).Perm
          ((s.hands p).erase replaceWithId) := by
        have hp := (List.perm_append_singleton jokerId
          ((s.hands p).erase replaceWithId)).erase jokerId
        rw [List.erase_cons_head] at hp
        exact hp
      exact ((List.perm_append_singleton replaceWithId _).trans
        (hstep1.cons replaceWithId)).trans (List.perm_cons_erase (by simpa using hrin)).symm
    · have h2 : (swapRollbackState s p mid jokerId replaceWithId meld).tableMelds = updateMeld (updateMeld s.tableMelds mid (fun m => { m with cardIds := meld.cardIds.map (fun id => if id = jokerId then replaceWithId else id) })) mid (fun m => { m with cardIds := m.cardIds.map (fun id => if id = replaceWithId then jokerId else id) }) := rfl
      rw [h2, updateMeld_comp mid (fun m => { m with cardIds := meld.cardIds.map (fun id => if id = jokerId then replaceWithId else id) }) (fun m => { m with cardIds := m.cardIds.map (fun id => if id = replaceWithId then jokerId else id) }) (fun m => rfl)]
      refine updateMeld_find_eq_self mid _ s.tableMelds meld hfind ?_
      show { meld with cardIds := (meld.cardIds.map (fun id => if id = jokerId then replaceWithId else id)).map (fun id => if id = replaceWithId then jokerId else id) } = meld
      have hmap : (meld.cardIds.map (fun id => if id = jokerId then replaceWithId else id)).map
          (fun id => if id = replaceWithId then jokerId else id) = meld.cardIds := by
        rw [List.map_map]
        have hpt : ∀ id ∈ meld.cardIds,
            ((fun id => if id = replaceWithId then jokerId else id) ∘
              (fun id => if id = jokerId then replaceWithId else id)) id = id := by
          intro id hid
          by_cases hj : id = jokerId
          · simp [hj]
          · have hr : id ≠ replaceWithId := fun hEq => hrnm (hEq ▸ hid)
            simp [hj, hr]
        rw [List.map_congr_left hpt]
        simp
      rw [hmap]

theorem C2_rollback_atomicity_witness :
    ((applyStep c2State (Action.ADD_TO_MELD 0 0 [53])).hands 0).Perm (c2State.hands 0) ∧
    (applyStep c2State (Action.ADD_TO_MELD 0 0 [53])).tableMelds = c2State.tableMelds := by
  obtain ⟨s2, heq, hperm, hmelds⟩ :=
    C2_rollback_atomicity.1 c2State 0 0 [53] c2Meld "Not a valid set or run."
      [⟨50, Suit.CLUBS, Rank.EIGHT⟩, ⟨51, Suit.DIAMONDS, Rank.EIGHT⟩,
       ⟨52, Suit.HEARTS, Rank.EIGHT⟩, ⟨53, Suit.SPADES, Rank.TWO⟩]
      rfl rfl (by decide) (by decide) (by decide) (by decide) (by decide) (by decide) (by decide)
  have hstep : applyStep c2State (Action.ADD_TO_MELD 0 0 [53]) = s2 := by
    rw [applyStep, heq]
  rw [hstep]
  exact ⟨hperm, hmelds⟩

theorem lookupAll_isSome (cardsById : CardID → Option CardDTO) :
    ∀ ids : List CardID, (∀ id ∈ ids, (cardsById id).isSome = true) →
      ∃ dtos, lookupAll cardsById ids = some dtos := by
  intro ids
  induction ids with
  | nil => intro _; exact ⟨[], rfl⟩
  | cons i rest ih =>
    intro h
    obtain ⟨c, hc⟩ := Option.isSome_iff_exists.mp (h i (List.mem_cons_self i rest))
    obtain ⟨dtos, hd⟩ := ih (fun id hid => h id (List.mem_cons_of_mem i hid))
    exact ⟨c :: dtos, by simp only [lookupAll, hc, hd]⟩

theorem groupPoints_isSome (cardsById : CardID → Option CardDTO) (ids : List CardID)
    (h : ∀ id ∈ ids, (cardsById id).isSome = true) :
    ∃ pts, groupPoints ids cardsById = some pts := by
  rw [groupPoints]
  suffices hgen : ∀ (l : List CardID) (n : Nat), (∀ id ∈ l, (cardsById id).isSome = true) →
      ∃ m, l.foldl (fun acc id => acc.bind
        (fun t => (cardsById id).map (fun c => t + getValue c))) (some n) = some m by
    exact hgen ids 0 h
  intro l
  induction l with
  | nil => intro n _; exact ⟨n, rfl⟩
  | cons i rest ih =>
    intro n hl
    obtain ⟨c, hc⟩ := Option.isSome_iff_exists.mp (hl i (List.mem_cons_self i rest))
    obtain ⟨m, hm⟩ := ih (n + getValue c) (fun id hid => hl id (List.mem_cons_of_mem i hid))
    refine ⟨m, ?_⟩
    rw [List.foldl_cons]
    simp only [Option.some_bind, hc, Option.map_some']
    exact hm

theorem validateGroup_isSome (s : GameState) (g : List CardID)
    (h : ∀ id ∈ g, (s.cardsById id).isSome = true) :
    ∃ v, validateGroup s g = some v := by
  rw [validateGroup]
  split
  · exact ⟨_, rfl⟩
  · obtain ⟨dtos, hd⟩ := lookupAll_isSome s.cardsById g h
    exact ⟨validateMeld dtos, by rw [hd]; rfl⟩

theorem validateGroups_isSome (s : GameState) :
    ∀ groups : List (List CardID), (∀ id ∈ groups.flatten, (s.cardsById id).isSome = true) →
      ∃ vs, validateGroups s groups = some vs := by
  intro groups
  induction groups with
  | nil => intro _; exact ⟨[], rfl⟩
  | cons g rest ih =>
    intro h
    obtain ⟨v, hv⟩ := validateGroup_isSome s g (fun id hid =>
      h id (List.mem_flatten.mpr ⟨g, List.mem_cons_self g rest, hid⟩))
    obtain ⟨vs, hvs⟩ := ih (fun id hid => by
      obtain ⟨l, hl, hidl⟩ := List.mem_flatten.mp hid
      exact h id (List.mem_flatten.mpr ⟨l, List.mem_cons_of_mem g hl, hidl⟩))
    exact ⟨v :: vs, by simp only [validateGroups, hv, hvs]⟩

theorem removeFromHand_cardsById (s : GameState) (p : Fin 4) (ids : List CardID)
    (s1 : GameState) (h : removeFromHand s p ids = some s1) : s1.cardsById = s.cardsById := by
  rw [removeFromHand] at h
  split at h
  · rw [← Option.some.inj h]
  · cases h

def actionCardRefs : Action → List CardID
  | .OPEN_GROUP _ ids => ids
  | .OPEN_MULTI _ groups => groups.flatten
  | .LAY_MELD _ ids => ids
  | .ADD_TO_MELD _ _ ids => ids
  | _ => []

def Action.isRollback : Action → Bool
  | .ADD_TO_MELD _ _ _ | .SWAP_JOKER _ _ _ _ => true
  | _ => false

theorem applyDrawDeck_good (s : GameState) (p : Fin 4) :
    (∃ e, applyDrawDeck s p = (s, failRes e)) ∨ (∃ s1, applyDrawDeck s p = (s1, okRes)) := by
  rw [applyDrawDeck]
  split
  · exact Or.inl ⟨_, rfl⟩
  · cases hlast : s.drawOrder.getLast? with
    | none => exact Or.inl ⟨_, rfl⟩
    | some id => exact Or.inr ⟨_, rfl⟩

theorem applyDrawDiscard_good (s : GameState) (p : Fin 4) :
    (∃ e, applyDrawDiscard s p = (s, failRes e)) ∨
    (∃ s1, applyDrawDiscard s p = (s1, okRes)) := by
  rw [applyDrawDiscard]
  split
  · exact Or.inl ⟨_, rfl⟩
  · split
    · exact applyDrawDeck_good s p
    · cases hlast : s.discard.getLast? with
      | none => exact applyDrawDeck_good s p
      | some id => exact Or.inr ⟨_, rfl⟩

theorem applyPassAction_good (s : GameState) :
    (∃ e, applyPassAction s = (s, failRes e)) ∨ (∃ s1, applyPassAction s = (s1, okRes)) := by
  rw [applyPassAction]
  split
  · exact Or.inl ⟨_, rfl⟩
  · exact Or.inr ⟨_, rfl⟩

theorem applyDiscard_good (s : GameState) (p : Fin 4) (ids : List CardID) :
    (∃ e, applyDiscard s p ids = (s, failRes e)) ∨
    (∃ s1, applyDiscard s p ids = (s1, okRes)) := by
  rw [applyDiscard]
  split
  · exact Or.inl ⟨_, rfl⟩
  · split
    · exact Or.inl ⟨_, rfl⟩
    · dsimp only
      cases hrem : removeFromHand s p [ids.headD 0] with
      | none => exact Or.inl ⟨_, rfl⟩
      | some s1 =>
        dsimp only
        split
        · exact Or.inr ⟨_, rfl⟩
        · exact Or.inr ⟨_, rfl⟩

theorem applyOpenGroup_good (s : GameState) (p : Fin 4) (ids : List CardID)
    (hact : ∀ id ∈ ids, (s.cardsById id).isSome = true) :
    (∃ e, applyOpenGroup s p ids = some (s, failRes e)) ∨
    (∃ s1, applyOpenGroup s p ids = some (s1, okRes)) := by
  obtain ⟨pts, hp⟩ := groupPoints_isSome s.cardsById ids hact
  obtain ⟨dtos, hd⟩ := lookupAll_isSome s.cardsById ids hact
  rw [applyOpenGroup, hp, hd]
  split
  · exact Or.inl ⟨_, rfl⟩
  · split
    · exact Or.inl ⟨_, rfl⟩
    · cases hdd : discardDrawnError s ids "Opening group must include the discard-drawn card." with
      | some e => exact Or.inl ⟨_, rfl⟩
      | none =>
        dsimp only
        split
        · exact Or.inl ⟨_, rfl⟩
        · split
          · exact Or.inl ⟨_, rfl⟩
          · cases hval : validateMeld dtos with
            | err e => exact Or.inl ⟨_, rfl⟩
            | ok mv =>
              dsimp only
              cases hrem : removeFromHand s p ids with
              | none => exact Or.inl ⟨_, rfl⟩
              | some s1 => exact Or.inr ⟨_, rfl⟩

theorem applyOpenMulti_good (s : GameState) (p : Fin 4) (groups : List (List CardID))
    (hact : ∀ id ∈ groups.flatten, (s.cardsById id).isSome = true) :
    (∃ e, applyOpenMulti s p groups = some (s, failRes e)) ∨
    (∃ s1, applyOpenMulti s p groups = some (s1, okRes)) := by
  obtain ⟨pts, hp⟩ := groupPoints_isSome s.cardsById groups.flatten hact
  obtain ⟨vs, hvs⟩ := validateGroups_isSome s groups hact
  rw [applyOpenMulti, hp, hvs]
  split
  · exact Or.inl ⟨_, rfl⟩
  · split
    · exact Or.inl ⟨_, rfl⟩
    · split
      · exact Or.inl ⟨_, rfl⟩
      · split
        · exact Or.inl ⟨_, rfl⟩
        · cases hdd : discardDrawnError s groups.flatten
            "Opening must include the discard-drawn card." with
          | some e => exact Or.inl ⟨_, rfl⟩
          | none =>
            dsimp only
            split
            · exact Or.inl ⟨_, rfl⟩
            · split
              · exact Or.inl ⟨_, rfl⟩
              · split
                · exact Or.inl ⟨_, rfl⟩
                · cases hfe : firstErr vs with
                  | some e => exact Or.inl ⟨_, rfl⟩
                  | none =>
                    dsimp only
                    cases hrem : removeFromHand s p groups.flatten with
                    | none => exact Or.inl ⟨_, rfl⟩
                    | some s1 => exact Or.inr ⟨_, rfl⟩

theorem applyLayMeld_good (s : GameState) (p : Fin 4) (ids : List CardID)
    (hact : ∀ id ∈ ids, (s.cardsById id).isSome = true) :
    (∃ e, applyLayMeld s p ids = some (s, failRes e)) ∨
    (∃ s1, applyLayMeld s p ids = some (s1, okRes)) := by
  obtain ⟨dtos, hd⟩ := lookupAll_isSome s.cardsById ids hact
  rw [applyLayMeld, hd]
  split
  · exact Or.inl ⟨_, rfl⟩
  · split
    · exact Or.inl ⟨_, rfl⟩
    · split
      · exact Or.inl ⟨_, rfl⟩
      · dsimp only
        cases hval : validateMeld dtos with
        | err e => exact Or.inl ⟨_, rfl⟩
        | ok mv =>
          dsimp only
          cases hrem : removeFromHand s p ids with
          | none => exact Or.inl ⟨_, rfl⟩
          | some s1 => exact Or.inr ⟨_, rfl⟩

theorem applyAddToMeld_good (s : GameState) (p : Fin 4) (mid : Nat) (ids : List CardID)
    (hstate : ∀ m ∈ s.tableMelds, ∀ id ∈ m.cardIds, (s.cardsById id).isSome = true)
    (hact : ∀ id ∈ ids, (s.cardsById id).isSome = true) :
    (∃ e, applyAddToMeld s p mid ids = some (s, failRes e)) ∨
    (∃ s1 e, applyAddToMeld s p mid ids = some (s1, failRes e)) ∨
    (∃ s1, applyAddToMeld s p mid ids = some (s1, okRes)) := by
  rw [applyAddToMeld]
  split
  · exact Or.inl ⟨_, rfl⟩
  · split
    · exact Or.inl ⟨_, rfl⟩
    · cases hfind : s.tableMelds.find? (fun m => m.mid == mid) with
      | none => exact Or.inl ⟨_, rfl⟩
      | some meld =>
        dsimp only
        split
        · exact Or.inl ⟨_, rfl⟩
        · cases hrem : removeFromHand s p ids with
          | none => exact Or.inl ⟨_, rfl⟩
          | some s1 =>
            dsimp only
            have hall : ∀ id ∈ meld.cardIds ++ ids, (s.cardsById id).isSome = true := by
              intro id hid
              cases List.mem_append.mp hid with
              | inl hml => exact hstate meld (List.mem_of_find?_eq_some hfind) id hml
              | inr hia => exact hact id hia
            obtain ⟨dtos, hd⟩ := lookupAll_isSome s.cardsById (meld.cardIds ++ ids) hall
            rw [hd]
            dsimp only
            cases hval : validateMeld dtos with
            | err e => exact Or.inr (Or.inl ⟨_, _, rfl⟩)
            | ok mv => exact Or.inr (Or.inr ⟨_, rfl⟩)

theorem applySwapJoker_good (s : GameState) (p : Fin 4) (mid : Nat) (j r : CardID)
    (hstate : ∀ m ∈ s.tableMelds, ∀ id ∈ m.cardIds, (s.cardsById id).isSome = true) :
    (∃ e, applySwapJoker s p mid j r = some (s, failRes e)) ∨
    (∃ s1 e, applySwapJoker s p mid j r = some (s1, failRes e)) ∨
    (∃ s1, applySwapJoker s p mid j r = some (s1, okRes)) := by
  rw [applySwapJoker]
  split
  · exact Or.inl ⟨_, rfl⟩
  · split
    · exact Or.inl ⟨_, rfl⟩
    · cases hfind : s.tableMelds.find? (fun m => m.mid == mid) with
      | none => exact Or.inl ⟨_, rfl⟩
      | some meld =>
        dsimp only
        split
        · exact Or.inl ⟨_, rfl⟩
        · cases hrep : List.lookup j meld.jokerMap with
          | none => exact Or.inl ⟨_, rfl⟩
          | some rep =>
            dsimp only
            cases hdto : s.cardsById r with
            | none => exact Or.inl ⟨_, rfl⟩
            | some replaceDto =>
              dsimp only
              split
              · exact Or.inl ⟨_, rfl⟩
              · cases hrem : removeFromHand s p [r] with
                | none => exact Or.inl ⟨_, rfl⟩
                | some s1 =>
                  dsimp only
                  rw [removeFromHand_cardsById s p [r] s1 hrem]
                  have hall : ∀ id2 ∈ meld.cardIds.map (fun id => if id = j then r else id),
                      (s.cardsById id2).isSome = true := by
                    intro id2 hid2
                    obtain ⟨id0, hid0, heq0⟩ := List.mem_map.mp hid2
                    by_cases hj : id0 = j
                    · rw [← heq0, if_pos hj, hdto]
                      rfl
                    · rw [← heq0, if_neg hj]
                      exact hstate meld (List.mem_of_find?_eq_some hfind) id0 hid0
                  obtain ⟨dtos, hd⟩ := lookupAll_isSome s.cardsById _ hall
                  rw [hd]
                  dsimp only
                  cases hval : validateMeld dtos with
                  | err e => exact Or.inr (Or.inl ⟨_, _, rfl⟩)
                  | ok mv => exact Or.inr (Or.inr ⟨_, rfl⟩)

/-- C8 (amended): provided every CardID the call dereferences resolves in
cardsById (the ids named by the action, and the stored meld ids for the two
meld-editing actions), applyAction always returns some result rather than
raising; every rejection carries an error string, and for every action other
than the two rollback actions a rejection leaves the state unchanged. -/
theorem C8_total_no_throw :
    ∀ s a,
      (∀ m ∈ s.tableMelds, ∀ id ∈ m.cardIds, (s.cardsById id).isSome = true) →
      (∀ id ∈ actionCardRefs a, (s.cardsById id).isSome = true) →
      ∃ s1 r, applyAction s a = some (s1, r) ∧
        (r.ok = true ∨
          (r.ok = false ∧ (∃ e, r.error = some e) ∧ (a.isRollback = true ∨ s1 = s))) := by
  intro s a hstate hact
  by_cases hpe : a.player = s.currentTurn
  · by_cases hgo : s.phase = Phase.GAME_OVER
    · rw [applyAction, if_neg (by simp [hpe]), if_pos hgo]
      exact ⟨s, failRes "Game is over.", rfl, Or.inr ⟨rfl, ⟨_, rfl⟩, Or.inr rfl⟩⟩
    · rw [applyAction_eq_body s a hpe hgo]
      cases a with
      | DRAW_DECK p =>
        rcases applyDrawDeck_good s p with ⟨e, he⟩ | ⟨s1, h1⟩
        · exact ⟨s, failRes e, by simp only [applyActionBody]; rw [he],
            Or.inr ⟨rfl, ⟨_, rfl⟩, Or.inr rfl⟩⟩
        · exact ⟨s1, okRes, by simp only [applyActionBody]; rw [h1], Or.inl rfl⟩
      | DRAW_DISCARD p =>
        rcases applyDrawDiscard_good s p with ⟨e, he⟩ | ⟨s1, h1⟩
        · exact ⟨s, failRes e, by simp only [applyActionBody]; rw [he],
            Or.inr ⟨rfl, ⟨_, rfl⟩, Or.inr rfl⟩⟩
        · exact ⟨s1, okRes, by simp only [applyActionBody]; rw [h1], Or.inl rfl⟩
      | PASS_ACTION p =>
        rcases applyPassAction_good s with ⟨e, he⟩ | ⟨s1, h1⟩
        · exact ⟨s, failRes e, by simp only [applyActionBody]; rw [he],
            Or.inr ⟨rfl, ⟨_, rfl⟩, Or.inr rfl⟩⟩
        · exact ⟨s1, okRes, by simp only [applyActionBody]; rw [h1], Or.inl rfl⟩
      | DISCARD p ids =>
        rcases applyDiscard_good s p ids with ⟨e, he⟩ | ⟨s1, h1⟩
        · exact ⟨s, failRes e, by simp only [applyActionBody]; rw [he],
            Or.inr ⟨rfl, ⟨_, rfl⟩, Or.inr rfl⟩⟩
        · exact ⟨s1, okRes, by simp only [applyActionBody]; rw [h1], Or.inl rfl⟩
      | OPEN_GROUP p ids =>
        rcases applyOpenGroup_good s p ids hact with ⟨e, he⟩ | ⟨s1, h1⟩
        · exact ⟨s, failRes e, by simp only [applyActionBody]; rw [he],
            Or.inr ⟨rfl, ⟨_, rfl⟩, Or.inr rfl⟩⟩
        · exact ⟨s1, okRes, by simp only [applyActionBody]; rw [h1], Or.inl rfl⟩
      | OPEN_MULTI p groups =>
        rcases applyOpenMulti_good s p groups hact with ⟨e, he⟩ | ⟨s1, h1⟩
        · exact ⟨s, failRes e, by simp only [applyActionBody]; rw [he],
            Or.inr ⟨rfl, ⟨_, rfl⟩, Or.inr rfl⟩⟩
        · exact ⟨s1, okRes, by simp only [applyActionBody]; rw [h1], Or.inl rfl⟩
      | LAY_MELD p ids =>
        rcases applyLayMeld_good s p ids hact with ⟨e, he⟩ | ⟨s1, h1⟩
        · exact ⟨s, failRes e, by simp only [applyActionBody]; rw [he],
            Or.inr ⟨rfl, ⟨_, rfl⟩, Or.inr rfl⟩⟩
        · exact ⟨s1, okRes, by simp only [applyActionBody]; rw [h1], Or.inl rfl⟩
      | ADD_TO_MELD p mid ids =>
        rcases applyAddToMeld_good s p mid ids hstate hact with ⟨e, he⟩ | ⟨s1, e, he⟩ | ⟨s1, h1⟩
        · exact ⟨s, failRes e, by simp only [applyActionBody]; rw [he],
            Or.inr ⟨rfl, ⟨_, rfl⟩, Or.inl rfl⟩⟩
        · exact ⟨s1, failRes e, by simp only [applyActionBody]; rw [he],
            Or.inr ⟨rfl, ⟨_, rfl⟩, Or.inl rfl⟩⟩
        · exact ⟨s1, okRes, by simp only [applyActionBody]; rw [h1], Or.inl rfl⟩
      | SWAP_JOKER p mid j rep =>
        rcases applySwapJoker_good s p mid j rep hstate with ⟨e, he⟩ | ⟨s1, e, he⟩ | ⟨s1, h1⟩
        · exact ⟨s, failRes e, by simp only [applyActionBody]; rw [he],
            Or.inr ⟨rfl, ⟨_, rfl⟩, Or.inl rfl⟩⟩
        · exact ⟨s1, failRes e, by simp only [applyActionBody]; rw [he],
            Or.inr ⟨rfl, ⟨_, rfl⟩, Or.inl rfl⟩⟩
        · exact ⟨s1, okRes, by simp only [applyActionBody]; rw [h1], Or.inl rfl⟩
  · rw [applyAction, if_pos (by simp [hpe])]
    exact ⟨s, failRes "Not your turn.", rfl, Or.inr ⟨rfl, ⟨_, rfl⟩, Or.inr rfl⟩⟩

def c8CrashState : GameState :=
  mkState Phase.ACTION 0 [] [] false [] none (some DrawSource.DECK) [] []

/-- C8 counterexample: an OPEN_GROUP naming a CardID absent from cardsById
reaches groupPoints, whose toCardClass dereference of the undefined lookup
raises a TypeError in the source; the embedding marks that raised exception as
none, so applyAction does not return an ok/error record at all. -/
theorem C8_unknown_id_throws_cex :
    applyAction c8CrashState (Action.OPEN_GROUP 0 [999]) = none := rfl

theorem C8_total_no_throw_witness :
    applyAction c9DiscardState (Action.OPEN_GROUP 0 [20, 21, 22]) ≠ none := by
  obtain ⟨s1, r, heq, -⟩ := C8_total_no_throw c9DiscardState (Action.OPEN_GROUP 0 [20, 21, 22])
    (fun m hm => absurd hm (List.not_mem_nil m)) (by decide)
  rw [heq]
  simp

/-- The sorted joker ids of validateSet (ascending CardID). -/
def setJokers (cards : List CardDTO) : List CardID :=
  List.insertionSort (· ≤ ·) ((cards.filter (fun c => isJoker c)).map (fun c => c.id))

/-- The suits missing from the cycle order among the non-jokers, as computed by
validateSet. -/
def setMissingSuits (cards : List CardDTO) : List Suit :=
  SUIT_ORDER.filter (fun s => !((cards.filter (fun c => !isJoker c)).map (fun c => c.suit)).contains s)

/-- The non-joker ids in stable suit-cycle order, as computed by validateSet. -/
def setOrderedNonIds (cards : List CardDTO) : List CardID :=
  (List.insertionSort (fun a b => suitIdx a.suit ≤ suitIdx b.suit)
    (cards.filter (fun c => !isJoker c))).map (fun c => c.id)

/-- The shared rank of the set (the first non-joker rank). -/
def setFirstRank (cards : List CardDTO) : Rank :=
  ((cards.filter (fun c => !isJoker c)).headD ⟨0, Suit.JOKER, Rank.JOKER⟩).rank

theorem validateSet_ok_inv (cards : List CardDTO) (v : MeldOk)
    (h : validateSet cards = .ok v) :
    ¬ (setMissingSuits cards).length < (setJokers cards).length ∧
    v = ⟨MeldKind.SET, none, setOrderedNonIds cards ++ setJokers cards,
      recSetAll [] (((setJokers cards).zip (setMissingSuits cards)).map
        (fun kv => (kv.1, ⟨kv.2, setFirstRank cards⟩)))⟩ := by
  rw [validateSet] at h
  split at h
  · cases h
  · dsimp only at h
    split at h
    · cases h
    · next n0 rest heq =>
      split at h
      · cases h
      · split at h
        · cases h
        · split at h
          · cases h
          · split at h
            · cases h
            · next hge =>
              have hrank : setFirstRank cards = n0.rank := by
                rw [setFirstRank, heq]
                rfl
              rw [setMissingSuits, setJokers, setOrderedNonIds, hrank]
              exact ⟨hge, (MeldValidation.ok.inj h).symm⟩

theorem recSet_append_fresh (k : CardID) (v : JokerRep) :
    ∀ m : List (CardID × JokerRep), (∀ kv ∈ m, kv.1 ≠ k) →
      recSet m k v = m ++ [(k, v)] := by
  intro m
  induction m with
  | nil => intro _; rfl
  | cons kv0 rest ih =>
    intro h
    obtain ⟨k0, v0⟩ := kv0
    simp only [recSet]
    rw [if_neg (h (k0, v0) (List.mem_cons_self _ _)),
      ih (fun kv hkv => h kv (List.mem_cons_of_mem _ hkv))]
    rfl

theorem recSetAll_eq_of_nodup :
    ∀ pairs acc : List (CardID × JokerRep),
      (pairs.map Prod.fst).Nodup → (∀ kv ∈ pairs, ∀ kv0 ∈ acc, kv0.1 ≠ kv.1) →
      recSetAll acc pairs = acc ++ pairs := by
  intro pairs
  induction pairs with
  | nil => intro acc _ _; simp [recSetAll]
  | cons kv rest ih =>
    intro acc hnd hfresh
    obtain ⟨k, v⟩ := kv
    have hstep : recSetAll acc ((k, v) :: rest) = recSetAll (recSet acc k v) rest := rfl
    rw [hstep, recSet_append_fresh k v acc
      (fun kv0 hkv0 => hfresh (k, v) (List.mem_cons_self _ _) kv0 hkv0)]
    rw [List.map_cons] at hnd
    have hknotin : k ∉ rest.map Prod.fst := (List.nodup_cons.mp hnd).1
    rw [ih (acc ++ [(k, v)]) (List.nodup_cons.mp hnd).2 ?_]
    · simp
    · intro kv2 hkv2 kv0 hkv0
      cases List.mem_append.mp hkv0 with
      | inl hacc => exact hfresh kv2 (List.mem_cons_of_mem _ hkv2) kv0 hacc
      | inr hsingle =>
        rw [List.mem_singleton.mp hsingle]
        intro hk
        have hmm : kv2.1 ∈ rest.map Prod.fst := List.mem_map_of_mem Prod.fst hkv2
        rw [← hk] at hmm
        exact hknotin hmm

def c5Cards : List CardDTO :=
  [⟨10, Suit.CLUBS, Rank.EIGHT⟩, ⟨11, Suit.DIAMONDS, Rank.EIGHT⟩,
   ⟨12, Suit.JOKER, Rank.JOKER⟩]

def c5DupCards : List CardDTO :=
  [⟨10, Suit.CLUBS, Rank.EIGHT⟩, ⟨12, Suit.JOKER, Rank.JOKER⟩,
   ⟨12, Suit.JOKER, Rank.JOKER⟩]

/-- C5 counterexample: validateSet accepts an input whose two jokers carry the
same CardID, but then the jokerMap does not assign the missing suits in
ascending CardID order: the single Record key 12 ends up mapped to HEARTS (the
second missing suit, because the second overwrite wins), and DIAMONDS, the
first missing suit, is assigned to no joker. -/
theorem C5_dup_joker_cex :
    validateSet c5DupCards =
      .ok ⟨MeldKind.SET, none, [10, 12, 12], [(12, ⟨Suit.HEARTS, Rank.EIGHT⟩)]⟩ ∧
    setJokers c5DupCards = [12, 12] ∧
    setMissingSuits c5DupCards = [Suit.DIAMONDS, Suit.HEARTS, Suit.SPADES] ∧
    [(12, (⟨Suit.HEARTS, Rank.EIGHT⟩ : JokerRep))] ≠
      ((setJokers c5DupCards).zip (setMissingSuits c5DupCards)).map
        (fun kv => (kv.1, (⟨kv.2, Rank.EIGHT⟩ : JokerRep))) := by
  refine ⟨by decide, by decide, by decide, by decide⟩

/-- C5 (amended): for every accepted input whose joker CardIDs are pairwise
distinct, the jokers are assigned exactly the suits missing from the cycle
order CLUBS, DIAMONDS, HEARTS, SPADES in ascending order of the jokers'
CardIDs, the ordered ids are the non-jokers in suit-cycle order followed by
the sorted joker ids, and validation fails whenever the jokers outnumber the
missing suits; on [8C, 8D, JOKER] the joker represents the 8 of HEARTS and
orderedIds is [8C, 8D, JOKER]. -/
theorem C5_set_joker_assignment :
    (∀ cards v, validateSet cards = .ok v → (setJokers cards).Nodup →
      (setJokers cards).length ≤ (setMissingSuits cards).length ∧
      v.jokerMap = ((setJokers cards).zip (setMissingSuits cards)).map
        (fun kv => (kv.1, ⟨kv.2, setFirstRank cards⟩)) ∧
      v.orderedIds = setOrderedNonIds cards ++ setJokers cards) ∧
    (∀ cards, (setMissingSuits cards).length < (setJokers cards).length →
      ∃ e, validateSet cards = .err e) ∧
    validateMeld c5Cards =
      .ok ⟨MeldKind.SET, none, [10, 11, 12], [(12, ⟨Suit.HEARTS, Rank.EIGHT⟩)]⟩ := by
  refine ⟨?_, ?_, by decide⟩
  · intro cards v hok hnodup
    obtain ⟨hge, hv⟩ := validateSet_ok_inv cards v hok
    have hle : (setJokers cards).length ≤ (setMissingSuits cards).length :=
      Nat.le_of_not_lt hge
    refine ⟨hle, ?_, ?_⟩
    · rw [hv]
      show recSetAll [] _ = _
      rw [recSetAll_eq_of_nodup _ [] ?_ (fun kv _ kv0 hkv0 => absurd hkv0 (List.not_mem_nil kv0))]
      · rw [List.nil_append]
      · have hkeys : (((setJokers cards).zip (setMissingSuits cards)).map
            (fun kv => (kv.1, (⟨kv.2, setFirstRank cards⟩ : JokerRep)))).map Prod.fst =
            setJokers cards := by
          rw [List.map_map]
          have : (Prod.fst ∘ fun kv : CardID × Suit =>
              (kv.1, (⟨kv.2, setFirstRank cards⟩ : JokerRep))) = Prod.fst := rfl
          rw [this]
          exact List.map_fst_zip _ _ hle
        rw [hkeys]
        exact hnodup
    · rw [hv]
  · intro cards hlt
    cases hv : validateSet cards with
    | ok v =>
      obtain ⟨hge, -⟩ := validateSet_ok_inv cards v hv
      exact absurd hlt hge
    | err e => exact ⟨e, rfl⟩

theorem C5_set_joker_assignment_witness :
    (setJokers c5Cards).length ≤ (setMissingSuits c5Cards).length ∧
    (⟨MeldKind.SET, none, [10, 11, 12], [(12, ⟨Suit.HEARTS, Rank.EIGHT⟩)]⟩ : MeldOk).jokerMap =
      ((setJokers c5Cards).zip (setMissingSuits c5Cards)).map
        (fun kv => (kv.1, ⟨kv.2, setFirstRank c5Cards⟩)) ∧
    (⟨MeldKind.SET, none, [10, 11, 12], [(12, ⟨Suit.HEARTS, Rank.EIGHT⟩)]⟩ : MeldOk).orderedIds =
      setOrderedNonIds c5Cards ++ setJokers c5Cards :=
  C5_set_joker_assignment.1 c5Cards
    ⟨MeldKind.SET, none, [10, 11, 12], [(12, ⟨Suit.HEARTS, Rank.EIGHT⟩)]⟩
    (by decide) (by decide)

/-- The non-joker rank indices of a run proposal, in input order. -/
def runIdxList (cards : List CardDTO) (mode : AceMode) : List Nat :=
  (cards.filter (fun c => !isJoker c)).map (fun c => rankIndex c.rank mode)

/-- Least rank index of the mode window range (LOW 1, HIGH 2). -/
def runMinRank (mode : AceMode) : Nat := if mode = AceMode.HIGH then 2 else 1

/-- Greatest rank index of the mode window range (LOW 13, HIGH 14). -/
def runMaxRank (mode : AceMode) : Nat := if mode = AceMode.HIGH then 14 else 13

/-- The window condition of the spec: start lies in the mode range, the window
[start, start+size-1] stays in range and contains every non-joker index, and
the uncovered window slots do not exceed the joker count. -/
def specRunWindow (mode : AceMode) (size : Nat) (idxList : List Nat)
    (jokCount start : Nat) : Prop :=
  runMinRank mode ≤ start ∧ start + size - 1 ≤ runMaxRank mode ∧
  (∀ v ∈ idxList, start ≤ v ∧ v ≤ start + size - 1) ∧
  ((List.range' start size).filter (fun v => !(idxList.contains v))).length ≤ jokCount

/-- The sorted joker CardIDs of a run proposal. -/
def runJokerIds (cards : List CardDTO) : List CardID :=
  List.insertionSort (fun a b => a ≤ b) ((cards.filter (fun c => isJoker c)).map (fun c => c.id))

/-- The uncovered slots of the chosen window, as validateRun computes them. -/
def runMissingIdxs (cards : List CardDTO) (mode : AceMode) (start : Nat) : List Nat :=
  (List.range' start cards.length).filter
    (fun v => !((List.insertionSort (fun a b => a ≤ b) (runIdxList cards mode)).contains v))

/-- The shared suit of a run proposal (suit of the first non-joker). -/
def runHeadSuit (cards : List CardDTO) : Suit :=
  ((cards.filter (fun c => !isJoker c)).headD ⟨0, Suit.JOKER, Rank.JOKER⟩).suit

theorem sortedHasAdjDup_eq_false_of_nodup :
    ∀ l : List Nat, l.Nodup → sortedHasAdjDup l = false
  | [], _ => rfl
  | [_], _ => rfl
  | a :: b :: rest, h => by
    have hab : a ≠ b := by
      intro hab
      exact (List.nodup_cons.mp h).1 (by rw [hab]; exact List.mem_cons_self b rest)
    have hne : (a == b) = false := beq_eq_false_iff_ne.mpr hab
    have hrec := sortedHasAdjDup_eq_false_of_nodup (b :: rest) (List.nodup_cons.mp h).2
    simp [sortedHasAdjDup, hne, hrec]

theorem sorted_headD_le (l : List Nat) (hs : List.Sorted (fun a b => a ≤ b) l)
    (v : Nat) (hv : v ∈ l) (d : Nat) : l.headD d ≤ v := by
  cases l with
  | nil => exact absurd hv (List.not_mem_nil v)
  | cons a t =>
    rw [List.headD_cons]
    cases List.mem_cons.mp hv with
    | inl h => rw [h]
    | inr h => exact List.rel_of_sorted_cons hs v h

theorem sorted_le_getLastD :
    ∀ l : List Nat, List.Sorted (fun a b => a ≤ b) l → ∀ v ∈ l, ∀ d, v ≤ l.getLastD d
  | [], _, v, hv, _ => absurd hv (List.not_mem_nil v)
  | a :: t, hs, v, hv, d => by
    rw [List.getLastD_cons]
    cases t with
    | nil =>
      cases List.mem_cons.mp hv with
      | inl h => rw [h]; exact le_rfl
      | inr h => exact absurd h (List.not_mem_nil v)
    | cons b t2 =>
      cases List.mem_cons.mp hv with
      | inl h =>
        calc v = a := h
          _ ≤ b := List.rel_of_sorted_cons hs b (List.mem_cons_self b t2)
          _ ≤ (b :: t2).getLastD a :=
            sorted_le_getLastD (b :: t2) hs.of_cons b (List.mem_cons_self b t2) a
      | inr h => exact sorted_le_getLastD (b :: t2) hs.of_cons v h a

theorem range'_find?_least :
    ∀ (n s : Nat) (p : Nat → Bool) (x : Nat), (List.range' s n).find? p = some x →
      p x = true ∧ x ∈ List.range' s n ∧ ∀ y ∈ List.range' s n, y < x → p y = false
  | 0, s, p, x, h => by
    rw [show List.range' s 0 = [] from rfl, List.find?_nil] at h
    cases h
  | n + 1, s, p, x, h => by
    rw [List.range'_succ] at h
    by_cases hps : p s = true
    · rw [List.find?_cons_of_pos _ hps] at h
      cases h
      refine ⟨hps, List.mem_cons_self s _, ?_⟩
      intro y hy hlt
      cases List.mem_cons.mp hy with
      | inl he => omega
      | inr hr =>
        have := (List.mem_range'_1.mp hr).1
        omega
    · rw [List.find?_cons_of_neg _ hps] at h
      obtain ⟨hpx, hmem, hmin⟩ := range'_find?_least n (s + 1) p x h
      refine ⟨hpx, List.mem_cons_of_mem _ hmem, ?_⟩
      intro y hy hlt
      cases List.mem_cons.mp hy with
      | inl he =>
        rw [he]
        cases hpb : p s with
        | true => exact absurd hpb hps
        | false => rfl
      | inr hr => exact hmin y hr hlt

theorem filter_not_contains_length (s n : Nat) (sub : List Nat) (hnd : sub.Nodup)
    (hmem : ∀ v ∈ sub, v ∈ List.range' s n) :
    ((List.range' s n).filter (fun v => !(sub.contains v))).length = n - sub.length := by
  have hperm := List.filter_append_perm (fun v => sub.contains v) (List.range' s n)
  have hlen : ((List.range' s n).filter (fun v => sub.contains v)).length +
      ((List.range' s n).filter (fun v => !(sub.contains v))).length = n := by
    have h2 := hperm.length_eq
    rw [List.length_append] at h2
    rw [h2, List.length_range']
  have hcov : ((List.range' s n).filter (fun v => sub.contains v)).length = sub.length := by
    have hpermsub : ((List.range' s n).filter (fun v => sub.contains v)).Perm sub := by
      rw [List.perm_ext_iff_of_nodup (List.Nodup.filter _ (List.nodup_range' s n)) hnd]
      intro a
      rw [List.mem_filter]
      constructor
      · intro ⟨_, hc⟩
        exact List.elem_iff.mp hc
      · intro ha
        exact ⟨hmem a ha, List.elem_iff.mpr ha⟩
    exact hpermsub.length_eq
  omega

theorem runStartCandidates_eq (mode : AceMode) (len : Nat) :
    runStartCandidates mode len =
      List.range' (runMinRank mode) (runMaxRank mode + 2 - len - runMinRank mode) := by
  cases mode <;> rfl

theorem runMaxRank_eq (mode : AceMode) : runMaxRank mode = runMinRank mode + 12 := by
  cases mode <;> rfl

theorem mem_runStartCandidates_iff (mode : AceMode) (len : Nat) (hlen : 1 ≤ len)
    (start : Nat) :
    start ∈ runStartCandidates mode len ↔
      runMinRank mode ≤ start ∧ start + len - 1 ≤ runMaxRank mode := by
  rw [runStartCandidates_eq, List.mem_range'_1]
  have h3 := runMaxRank_eq mode
  omega

theorem runFindPred_iff (len jok : Nat) (idxL : List Nat) (hlen : 1 ≤ len)
    (hnd : idxL.Nodup) (hne : idxL ≠ []) (start : Nat) :
    ((decide (start ≤ (List.insertionSort (fun a b => a ≤ b) idxL).headD 0) &&
      decide ((List.insertionSort (fun a b => a ≤ b) idxL).getLastD 0 ≤ start + len - 1) &&
      decide (len - (List.insertionSort (fun a b => a ≤ b) idxL).length ≤ jok)) = true) ↔
    ((∀ v ∈ idxL, start ≤ v ∧ v ≤ start + len - 1) ∧
     ((List.range' start len).filter (fun v => !(idxL.contains v))).length ≤ jok) := by
  have hperm := List.perm_insertionSort (fun a b => a ≤ b) idxL
  have hsort := List.sorted_insertionSort (fun a b => a ≤ b) idxL
  have hSne : List.insertionSort (fun a b => a ≤ b) idxL ≠ [] := by
    intro hnil
    exact hne ((hnil ▸ hperm).symm.eq_nil)
  have hhd_mem : (List.insertionSort (fun a b => a ≤ b) idxL).headD 0 ∈
      List.insertionSort (fun a b => a ≤ b) idxL := by
    cases hS : List.insertionSort (fun a b => a ≤ b) idxL with
    | nil => exact absurd hS hSne
    | cons a t => rw [List.headD_cons]; exact List.mem_cons_self a t
  have hlst_mem : (List.insertionSort (fun a b => a ≤ b) idxL).getLastD 0 ∈
      List.insertionSort (fun a b => a ≤ b) idxL := by
    rw [List.getLastD_eq_getLast?, List.getLast?_eq_getLast _ hSne]
    exact List.getLast_mem hSne
  have hcount : ∀ hinc : ∀ v ∈ idxL, start ≤ v ∧ v ≤ start + len - 1,
      ((List.range' start len).filter (fun v => !(idxL.contains v))).length =
        len - idxL.length := by
    intro hinc
    exact filter_not_contains_length start len idxL hnd (fun v hv => by
      rw [List.mem_range'_1]
      have := hinc v hv
      omega)
  have hslen : (List.insertionSort (fun a b => a ≤ b) idxL).length = idxL.length :=
    List.length_insertionSort _ idxL
  constructor
  · intro h
    rw [Bool.and_eq_true, Bool.and_eq_true] at h
    obtain ⟨⟨h1, h2⟩, h3⟩ := h
    have h1' := of_decide_eq_true h1
    have h2' := of_decide_eq_true h2
    have h3' := of_decide_eq_true h3
    have hinc : ∀ v ∈ idxL, start ≤ v ∧ v ≤ start + len - 1 := by
      intro v hv
      have hvS : v ∈ List.insertionSort (fun a b => a ≤ b) idxL := hperm.mem_iff.mpr hv
      constructor
      · exact le_trans h1' (sorted_headD_le _ hsort v hvS 0)
      · exact le_trans (sorted_le_getLastD _ hsort v hvS 0) h2'
    refine ⟨hinc, ?_⟩
    rw [hcount hinc]
    rw [hslen] at h3'
    exact h3'
  · intro ⟨hinc, hcnt⟩
    rw [Bool.and_eq_true, Bool.and_eq_true]
    refine ⟨⟨decide_eq_true ?_, decide_eq_true ?_⟩, decide_eq_true ?_⟩
    · exact (hinc _ (hperm.mem_iff.mp hhd_mem)).1
    · exact (hinc _ (hperm.mem_iff.mp hlst_mem)).2
    · rw [hslen, ← hcount hinc]
      exact hcnt

theorem validateRun_none_eq (cards : List CardDTO) (mode : AceMode)
    (hlen : 3 ≤ cards.length)
    (hne : cards.filter (fun c => !isJoker c) ≠ [])
    (hsuit : (cards.filter (fun c => !isJoker c)).all
      (fun c => c.suit == runHeadSuit cards) = true)
    (hadj : sortedHasAdjDup
      (List.insertionSort (fun a b => a ≤ b) (runIdxList cards mode)) = false)
    (hcs : runChosenStart mode cards.length
      ((List.insertionSort (fun a b => a ≤ b) (runIdxList cards mode)).headD 0)
      ((List.insertionSort (fun a b => a ≤ b) (runIdxList cards mode)).getLastD 0)
      (List.insertionSort (fun a b => a ≤ b) (runIdxList cards mode)).length
      (cards.filter (fun c => isJoker c)).length = none) :
    validateRun cards mode = .err "Run cannot be completed with jokers." := by
  rw [runHeadSuit] at hsuit
  rw [runIdxList] at hadj hcs
  rw [validateRun, if_neg (by omega)]
  cases hnn : cards.filter (fun c => !isJoker c) with
  | nil => exact absurd hnn hne
  | cons n0 rest =>
    rw [hnn] at hsuit hadj hcs
    rw [List.headD_cons] at hsuit
    dsimp only
    rw [if_neg (by rw [hsuit]; decide), if_neg (by rw [hadj]; decide), hcs]

theorem validateRun_some_eq (cards : List CardDTO) (mode : AceMode) (start : Nat)
    (hlen : 3 ≤ cards.length)
    (hne : cards.filter (fun c => !isJoker c) ≠ [])
    (hsuit : (cards.filter (fun c => !isJoker c)).all
      (fun c => c.suit == runHeadSuit cards) = true)
    (hadj : sortedHasAdjDup
      (List.insertionSort (fun a b => a ≤ b) (runIdxList cards mode)) = false)
    (hcs : runChosenStart mode cards.length
      ((List.insertionSort (fun a b => a ≤ b) (runIdxList cards mode)).headD 0)
      ((List.insertionSort (fun a b => a ≤ b) (runIdxList cards mode)).getLastD 0)
      (List.insertionSort (fun a b => a ≤ b) (runIdxList cards mode)).length
      (cards.filter (fun c => isJoker c)).length = some start) :
    validateRun cards mode =
      if (runMissingIdxs cards mode start).length < (runJokerIds cards).length then
        .err "Too many jokers for chosen run window."
      else .ok ⟨MeldKind.RUN, some mode,
        runLayout (List.range' start cards.length) (cards.filter (fun c => !isJoker c))
          (runJokerIds cards) mode,
        recSetAll [] (((runJokerIds cards).zip (runMissingIdxs cards mode start)).map
          (fun kv => (kv.1, ⟨runHeadSuit cards, indexToRank kv.2 mode⟩)))⟩ := by
  rw [runHeadSuit] at hsuit ⊢
  rw [runMissingIdxs, runJokerIds, runIdxList]
  rw [runIdxList] at hadj hcs
  rw [validateRun, if_neg (by omega)]
  cases hnn : cards.filter (fun c => !isJoker c) with
  | nil => exact absurd hnn hne
  | cons n0 rest =>
    rw [hnn] at hsuit hadj hcs
    rw [List.headD_cons] at hsuit
    dsimp only
    rw [if_neg (by rw [hsuit]; decide), if_neg (by rw [hadj]; decide), hcs,
      List.headD_cons]

theorem card_filter_partition (cards : List CardDTO) :
    (cards.filter (fun c => isJoker c)).length +
      (cards.filter (fun c => !isJoker c)).length = cards.length := by
  have h := (List.filter_append_perm (fun c => isJoker c) cards).length_eq
  rw [List.length_append] at h
  exact h

/-- C4: for every run proposal of size at least 3 with at least one non-joker,
all non-jokers of one suit and pairwise-distinct rank indices under the given
ace mode, validateRun fails with the no-window error exactly when no start in
the mode range gives a window [start, start+size-1] that contains every
non-joker index with uncovered slots not exceeding the joker count; and every
accepted result is built from the smallest such start: the meld is a RUN in
this mode whose ordered ids lay the window out slot by slot and whose jokers
fill the uncovered slots (so no joker is left outside the window). -/
theorem C4_run_window (cards : List CardDTO) (mode : AceMode)
    (hlen : 3 ≤ cards.length)
    (hne : cards.filter (fun c => !isJoker c) ≠ [])
    (hsuit : ∀ c ∈ cards.filter (fun c => !isJoker c), c.suit = runHeadSuit cards)
    (hnodup : (runIdxList cards mode).Nodup) :
    (validateRun cards mode = .err "Run cannot be completed with jokers." ↔
      ∀ start, ¬ specRunWindow mode cards.length (runIdxList cards mode)
        (cards.filter (fun c => isJoker c)).length start) ∧
    (∀ v, validateRun cards mode = .ok v →
      ∃ start, specRunWindow mode cards.length (runIdxList cards mode)
          (cards.filter (fun c => isJoker c)).length start ∧
        (∀ s2, s2 < start → ¬ specRunWindow mode cards.length (runIdxList cards mode)
          (cards.filter (fun c => isJoker c)).length s2) ∧
        v = ⟨MeldKind.RUN, some mode,
          runLayout (List.range' start cards.length)
            (cards.filter (fun c => !isJoker c)) (runJokerIds cards) mode,
          recSetAll [] (((runJokerIds cards).zip (runMissingIdxs cards mode start)).map
            (fun kv => (kv.1, ⟨runHeadSuit cards, indexToRank kv.2 mode⟩)))⟩) := by
  have hsuitall : (cards.filter (fun c => !isJoker c)).all
      (fun c => c.suit == runHeadSuit cards) = true :=
    List.all_eq_true.mpr (fun c hc => by rw [hsuit c hc]; simp)
  have hadj : sortedHasAdjDup
      (List.insertionSort (fun a b => a ≤ b) (runIdxList cards mode)) = false :=
    sortedHasAdjDup_eq_false_of_nodup _
      ((List.perm_insertionSort (fun a b => a ≤ b) (runIdxList cards mode)).nodup_iff.mpr hnodup)
  have hneIdx : runIdxList cards mode ≠ [] := by
    rw [runIdxList]
    intro h
    exact hne (List.map_eq_nil_iff.mp h)
  have hlen1 : 1 ≤ cards.length := by omega
  constructor
  · constructor
    · intro herr
      cases hcs : runChosenStart mode cards.length
          ((List.insertionSort (fun a b => a ≤ b) (runIdxList cards mode)).headD 0)
          ((List.insertionSort (fun a b => a ≤ b) (runIdxList cards mode)).getLastD 0)
          (List.insertionSort (fun a b => a ≤ b) (runIdxList cards mode)).length
          (cards.filter (fun c => isJoker c)).length with
      | none =>
        intro start hspec
        rw [runChosenStart] at hcs
        have hmemC : start ∈ runStartCandidates mode cards.length :=
          (mem_runStartCandidates_iff mode cards.length hlen1 start).mpr
            ⟨hspec.1, hspec.2.1⟩
        exact List.find?_eq_none.mp hcs start hmemC
          ((runFindPred_iff cards.length (cards.filter (fun c => isJoker c)).length
            (runIdxList cards mode) hlen1 hnodup hneIdx start).mpr
            ⟨hspec.2.2.1, hspec.2.2.2⟩)
      | some start =>
        exfalso
        have hv := validateRun_some_eq cards mode start hlen hne hsuitall hadj hcs
        rw [herr] at hv
        split at hv
        · exact absurd (MeldValidation.err.inj hv) (by decide)
        · cases hv
    · intro hall
      cases hcs : runChosenStart mode cards.length
          ((List.insertionSort (fun a b => a ≤ b) (runIdxList cards mode)).headD 0)
          ((List.insertionSort (fun a b => a ≤ b) (runIdxList cards mode)).getLastD 0)
          (List.insertionSort (fun a b => a ≤ b) (runIdxList cards mode)).length
          (cards.filter (fun c => isJoker c)).length with
      | none => exact validateRun_none_eq cards mode hlen hne hsuitall hadj hcs
      | some start =>
        exfalso
        rw [runChosenStart, runStartCandidates_eq] at hcs
        obtain ⟨hpx, hmemR, -⟩ := range'_find?_least _ _ _ _ hcs
        have hmemC : start ∈ runStartCandidates mode cards.length := by
          rw [runStartCandidates_eq]
          exact hmemR
        have hbounds := (mem_runStartCandidates_iff mode cards.length hlen1 start).mp hmemC
        have h34 := (runFindPred_iff cards.length
          (cards.filter (fun c => isJoker c)).length (runIdxList cards mode)
          hlen1 hnodup hneIdx start).mp hpx
        exact hall start ⟨hbounds.1, hbounds.2, h34.1, h34.2⟩
  · intro v hv
    cases hcs : runChosenStart mode cards.length
        ((List.insertionSort (fun a b => a ≤ b) (runIdxList cards mode)).headD 0)
        ((List.insertionSort (fun a b => a ≤ b) (runIdxList cards mode)).getLastD 0)
        (List.insertionSort (fun a b => a ≤ b) (runIdxList cards mode)).length
        (cards.filter (fun c => isJoker c)).length with
    | none =>
      rw [validateRun_none_eq cards mode hlen hne hsuitall hadj hcs] at hv
      cases hv
    | some start =>
      rw [validateRun_some_eq cards mode start hlen hne hsuitall hadj hcs] at hv
      rw [runChosenStart, runStartCandidates_eq] at hcs
      obtain ⟨hpx, hmemR, hminR⟩ := range'_find?_least _ _ _ _ hcs
      have hmemC : start ∈ runStartCandidates mode cards.length := by
        rw [runStartCandidates_eq]
        exact hmemR
      have hbounds := (mem_runStartCandidates_iff mode cards.length hlen1 start).mp hmemC
      have h34 := (runFindPred_iff cards.length
        (cards.filter (fun c => isJoker c)).length (runIdxList cards mode)
        hlen1 hnodup hneIdx start).mp hpx
      have hmiss : (runMissingIdxs cards mode start).length =
          cards.length - (runIdxList cards mode).length := by
        rw [runMissingIdxs]
        have hre := filter_not_contains_length start cards.length
          (List.insertionSort (fun a b => a ≤ b) (runIdxList cards mode))
          ((List.perm_insertionSort (fun a b => a ≤ b)
            (runIdxList cards mode)).nodup_iff.mpr hnodup)
          (fun w hw => by
            rw [List.mem_range'_1]
            have hmemI := (List.perm_insertionSort (fun a b => a ≤ b)
              (runIdxList cards mode)).mem_iff.mp hw
            have := h34.1 w hmemI
            omega)
        rw [hre, List.length_insertionSort]
      have hidxlen : (runIdxList cards mode).length =
          (cards.filter (fun c => !isJoker c)).length := by
        rw [runIdxList, List.length_map]
      have hjids : (runJokerIds cards).length =
          (cards.filter (fun c => isJoker c)).length := by
        rw [runJokerIds, List.length_insertionSort, List.length_map]
      have hpart := card_filter_partition cards
      rw [if_neg (by omega)] at hv
      refine ⟨start, ⟨hbounds.1, hbounds.2, h34.1, h34.2⟩, ?_, (MeldValidation.ok.inj hv).symm⟩
      intro s2 hlt hspec2
      have hmem2 : s2 ∈ List.range' (runMinRank mode)
          (runMaxRank mode + 2 - cards.length - runMinRank mode) := by
        rw [← runStartCandidates_eq]
        exact (mem_runStartCandidates_iff mode cards.length hlen1 s2).mpr
          ⟨hspec2.1, hspec2.2.1⟩
      have hfalse := hminR s2 hmem2 hlt
      have hfalse2 : ((decide (s2 ≤ (List.insertionSort (fun a b => a ≤ b)
          (runIdxList cards mode)).headD 0) &&
        decide ((List.insertionSort (fun a b => a ≤ b)
          (runIdxList cards mode)).getLastD 0 ≤ s2 + cards.length - 1) &&
        decide (cards.length - (List.insertionSort (fun a b => a ≤ b)
          (runIdxList cards mode)).length ≤
            (cards.filter (fun c => isJoker c)).length)) = false) := hfalse
      have htrue := (runFindPred_iff cards.length
        (cards.filter (fun c => isJoker c)).length (runIdxList cards mode)
        hlen1 hnodup hneIdx s2).mpr ⟨hspec2.2.2.1, hspec2.2.2.2⟩
      rw [htrue] at hfalse2
      cases hfalse2

def c4Cards : List CardDTO :=
  [⟨40, Suit.HEARTS, Rank.FOUR⟩, ⟨41, Suit.HEARTS, Rank.SIX⟩,
   ⟨104, Suit.JOKER, Rank.JOKER⟩]

theorem C4_run_window_witness :
    ∃ start, specRunWindow AceMode.LOW c4Cards.length (runIdxList c4Cards AceMode.LOW)
        (c4Cards.filter (fun c => isJoker c)).length start ∧
      (∀ s2, s2 < start → ¬ specRunWindow AceMode.LOW c4Cards.length
        (runIdxList c4Cards AceMode.LOW)
        (c4Cards.filter (fun c => isJoker c)).length s2) ∧
      (⟨MeldKind.RUN, some AceMode.LOW, [40, 104, 41],
        [(104, ⟨Suit.HEARTS, Rank.FIVE⟩)]⟩ : MeldOk) =
        ⟨MeldKind.RUN, some AceMode.LOW,
          runLayout (List.range' start c4Cards.length)
            (c4Cards.filter (fun c => !isJoker c)) (runJokerIds c4Cards) AceMode.LOW,
          recSetAll [] (((runJokerIds c4Cards).zip
            (runMissingIdxs c4Cards AceMode.LOW start)).map
            (fun kv => (kv.1, ⟨runHeadSuit c4Cards, indexToRank kv.2 AceMode.LOW⟩)))⟩ :=
  (C4_run_window c4Cards AceMode.LOW (by decide) (by decide) (by decide) (by decide)).2
    ⟨MeldKind.RUN, some AceMode.LOW, [40, 104, 41], [(104, ⟨Suit.HEARTS, Rank.FIVE⟩)]⟩
    (by decide)

/-- The public counters implied by the spec: each handCount mirrors the hidden
hand length and deckCount mirrors the hidden draw order length. -/
def CountersOk (s : GameState) : Prop :=
  (∀ p, (s.playersPublic p).handCount = (s.hands p).length) ∧
  s.deckCount = s.drawOrder.length

theorem removedState_countersOk (s : GameState) (p : Fin 4) (ids : List CardID)
    (hc : CountersOk s) : CountersOk (removedState s p ids) := by
  constructor
  · intro q
    by_cases hq : q = p
    · subst hq
      show (Function.update s.playersPublic q _ q).handCount =
        (Function.update s.hands q _ q).length
      rw [Function.update_same, Function.update_same]
    · show (Function.update s.playersPublic p _ q).handCount =
        (Function.update s.hands p _ q).length
      rw [Function.update_noteq hq, Function.update_noteq hq]
      exact hc.1 q
  · exact hc.2

theorem removeFromHand_some_inv (s s1 : GameState) (p : Fin 4) (ids : List CardID)
    (h : removeFromHand s p ids = some s1) : s1 = removedState s p ids := by
  rw [removeFromHand] at h
  split at h
  · exact (Option.some.inj h).symm
  · cases h

theorem addBackToHand_countersOk (s : GameState) (p : Fin 4) (ids : List CardID)
    (hc : CountersOk s) : CountersOk (addBackToHand s p ids) := by
  constructor
  · intro q
    by_cases hq : q = p
    · subst hq
      show (Function.update s.playersPublic q _ q).handCount =
        (Function.update s.hands q _ q).length
      rw [Function.update_same, Function.update_same]
    · show (Function.update s.playersPublic p _ q).handCount =
        (Function.update s.hands p _ q).length
      rw [Function.update_noteq hq, Function.update_noteq hq]
      exact hc.1 q
  · exact hc.2

theorem nextTurn_countersOk (s : GameState) (hc : CountersOk s) :
    CountersOk (nextTurn s) := hc

theorem pushMelds_fields (p : Fin 4) :
    ∀ (vs : List MeldValidation) (s : GameState),
      (pushMelds s p vs).playersPublic = s.playersPublic ∧
      (pushMelds s p vs).hands = s.hands ∧
      (pushMelds s p vs).deckCount = s.deckCount ∧
      (pushMelds s p vs).drawOrder = s.drawOrder
  | [], s => ⟨rfl, rfl, rfl, rfl⟩
  | v :: rest, s => by
    have hstep : pushMelds s p (v :: rest) =
        pushMelds (match v with
          | .ok mv => { s with tableMelds := s.tableMelds ++
              [⟨s.tableMelds.length, p, mv.orderedIds, mv.kind, mv.aceMode, mv.jokerMap⟩] }
          | .err _ => s) p rest := by
      cases v <;> rfl
    rw [hstep]
    cases v with
    | ok mv => exact pushMelds_fields p rest _
    | err e => exact pushMelds_fields p rest s

theorem pushMelds_countersOk (s : GameState) (p : Fin 4) (vs : List MeldValidation)
    (hc : CountersOk s) : CountersOk (pushMelds s p vs) := by
  obtain ⟨h1, h2, h3, h4⟩ := pushMelds_fields p vs s
  constructor
  · intro q
    rw [h1, h2]
    exact hc.1 q
  · rw [h3, h4]
    exact hc.2

theorem applyDrawDeck_counters (s : GameState) (p : Fin 4) (hc : CountersOk s) :
    CountersOk (applyDrawDeck s p).1 := by
  rw [applyDrawDeck]
  split
  · exact hc
  · split
    · exact hc
    · constructor
      · intro q
        by_cases hq : q = p
        · subst hq
          show (Function.update s.playersPublic q _ q).handCount =
            (Function.update s.hands q _ q).length
          rw [Function.update_same, Function.update_same, List.length_append]
          have := hc.1 q
          simp [this]
        · show (Function.update s.playersPublic p _ q).handCount =
            (Function.update s.hands p _ q).length
          rw [Function.update_noteq hq, Function.update_noteq hq]
          exact hc.1 q
      · rfl

theorem applyDrawDiscard_counters (s : GameState) (p : Fin 4) (hc : CountersOk s) :
    CountersOk (applyDrawDiscard s p).1 := by
  rw [applyDrawDiscard]
  split
  · exact hc
  · split
    · exact applyDrawDeck_counters s p hc
    · split
      · exact applyDrawDeck_counters s p hc
      · constructor
        · intro q
          by_cases hq : q = p
          · subst hq
            show (Function.update s.playersPublic q _ q).handCount =
              (Function.update s.hands q _ q).length
            rw [Function.update_same, Function.update_same, List.length_append]
            have := hc.1 q
            simp [this]
          · show (Function.update s.playersPublic p _ q).handCount =
              (Function.update s.hands p _ q).length
            rw [Function.update_noteq hq, Function.update_noteq hq]
            exact hc.1 q
        · exact hc.2

theorem applyPassAction_counters (s : GameState) (hc : CountersOk s) :
    CountersOk (applyPassAction s).1 := by
  rw [applyPassAction]
  split
  · exact hc
  · exact hc

theorem applyDiscard_counters (s : GameState) (p : Fin 4) (ids : List CardID)
    (hc : CountersOk s) : CountersOk (applyDiscard s p ids).1 := by
  rw [applyDiscard]
  split
  · exact hc
  · split
    · exact hc
    · dsimp only
      split
      · exact hc
      · next s1 heq =>
        have hs1 := removeFromHand_some_inv s s1 p _ heq
        subst hs1
        have hc1 : CountersOk (removedState s p [(ids.headD 0)]) :=
          removedState_countersOk s p [(ids.headD 0)] hc
        have hc2 : CountersOk { removedState s p [(ids.headD 0)] with
            discard := (removedState s p [(ids.headD 0)]).discard ++ [(ids.headD 0)] } :=
          ⟨hc1.1, hc1.2⟩
        split
        · exact hc2
        · exact nextTurn_countersOk _ hc2

theorem openedFlag_handCount (s : GameState) (p : Fin 4) (hc : CountersOk s) (q : Fin 4) :
    ((Function.update s.playersPublic p
      { s.playersPublic p with opened := true }) q).handCount = (s.hands q).length := by
  by_cases hq : q = p
  · subst hq
    rw [Function.update_same]
    exact hc.1 q
  · rw [Function.update_noteq hq]
    exact hc.1 q

theorem applyOpenGroup_counters (s : GameState) (p : Fin 4) (ids : List CardID)
    (pair : GameState × ActionResult) (h : applyOpenGroup s p ids = some pair)
    (hc : CountersOk s) : CountersOk pair.1 := by
  rw [applyOpenGroup] at h
  split at h
  · cases h; exact hc
  · split at h
    · cases h; exact hc
    · split at h
      · cases h; exact hc
      · split at h
        · cases h
        · split at h
          · cases h; exact hc
          · split at h
            · cases h; exact hc
            · split at h
              · cases h
              · split at h
                · cases h; exact hc
                · split at h
                  · cases h; exact hc
                  · next s1 heq =>
                    cases h
                    have hs1 := removeFromHand_some_inv s s1 p ids heq
                    subst hs1
                    have hc1 := removedState_countersOk s p ids hc
                    exact ⟨openedFlag_handCount _ p hc1, hc1.2⟩

theorem applyOpenMulti_counters (s : GameState) (p : Fin 4) (groups : List (List CardID))
    (pair : GameState × ActionResult) (h : applyOpenMulti s p groups = some pair)
    (hc : CountersOk s) : CountersOk pair.1 := by
  rw [applyOpenMulti] at h
  split at h
  · cases h; exact hc
  · split at h
    · cases h; exact hc
    · split at h
      · cases h; exact hc
      · split at h
        · cases h; exact hc
        · split at h
          · cases h; exact hc
          · split at h
            · cases h; exact hc
            · split at h
              · cases h; exact hc
              · split at h
                · cases h
                · split at h
                  · cases h; exact hc
                  · split at h
                    · cases h
                    · split at h
                      · cases h; exact hc
                      · split at h
                        · cases h; exact hc
                        · next s1 heq =>
                          dsimp only at h
                          cases h
                          have hs1 := removeFromHand_some_inv s s1 p groups.flatten heq
                          subst hs1
                          have hc1 := removedState_countersOk s p groups.flatten hc
                          exact ⟨openedFlag_handCount _ p (pushMelds_countersOk _ p _ hc1),
                            (pushMelds_countersOk _ p _ hc1).2⟩

theorem applyLayMeld_counters (s : GameState) (p : Fin 4) (ids : List CardID)
    (pair : GameState × ActionResult) (h : applyLayMeld s p ids = some pair)
    (hc : CountersOk s) : CountersOk pair.1 := by
  rw [applyLayMeld] at h
  split at h
  · cases h; exact hc
  · split at h
    · cases h; exact hc
    · split at h
      · cases h; exact hc
      · split at h
        · cases h
        · split at h
          · cases h; exact hc
          · split at h
            · cases h; exact hc
            · next s1 heq =>
              cases h
              have hs1 := removeFromHand_some_inv s s1 p ids heq
              subst hs1
              have hc1 := removedState_countersOk s p ids hc
              exact ⟨hc1.1, hc1.2⟩

theorem applyAddToMeld_counters (s : GameState) (p : Fin 4) (meldId : Nat)
    (ids : List CardID) (pair : GameState × ActionResult)
    (h : applyAddToMeld s p meldId ids = some pair)
    (hc : CountersOk s) : CountersOk pair.1 := by
  rw [applyAddToMeld] at h
  split at h
  · cases h; exact hc
  · split at h
    · cases h; exact hc
    · split at h
      · cases h; exact hc
      · split at h
        · cases h; exact hc
        · split at h
          · cases h; exact hc
          · next s1 heq =>
            have hs1 := removeFromHand_some_inv s s1 p ids heq
            subst hs1
            have hc1 := removedState_countersOk s p ids hc
            split at h
            · cases h
            · split at h
              · cases h
                exact addBackToHand_countersOk _ p ids hc1
              · dsimp only at h
                cases h
                exact ⟨hc1.1, hc1.2⟩

theorem applySwapJoker_counters (s : GameState) (p : Fin 4) (meldId : Nat)
    (jokerId replaceWithId : CardID) (pair : GameState × ActionResult)
    (h : applySwapJoker s p meldId jokerId replaceWithId = some pair)
    (hc : CountersOk s) : CountersOk pair.1 := by
  rw [applySwapJoker] at h
  split at h
  · cases h; exact hc
  · split at h
    · cases h; exact hc
    · split at h
      · cases h; exact hc
      · split at h
        · cases h; exact hc
        · split at h
          · cases h; exact hc
          · split at h
            · cases h; exact hc
            · split at h
              · cases h; exact hc
              · split at h
                · cases h; exact hc
                · next s1 heq =>
                  have hs1 := removeFromHand_some_inv s s1 p [replaceWithId] heq
                  subst hs1
                  have hc1 := removedState_countersOk s p [replaceWithId] hc
                  dsimp only at h
                  split at h
                  · cases h
                  · split at h
                    · cases h
                      constructor
                      · intro q
                        dsimp only
                        by_cases hq : q = p
                        · subst hq
                          simp [Function.update_same]
                        · simp only [Function.update_noteq hq]
                          exact hc1.1 q
                      · exact hc1.2
                    · cases h
                      constructor
                      · intro q
                        dsimp only
                        by_cases hq : q = p
                        · subst hq
                          simp [Function.update_same]
                        · simp only [Function.update_noteq hq]
                          exact hc1.1 q
                      · exact hc1.2

theorem applyAction_counters (s : GameState) (a : Action) (pair : GameState × ActionResult)
    (h : applyAction s a = some pair) (hc : CountersOk s) : CountersOk pair.1 := by
  rw [applyAction] at h
  split at h
  · cases h; exact hc
  · split at h
    · cases h; exact hc
    · cases a with
      | DRAW_DECK p =>
        cases h
        exact applyDrawDeck_counters s p hc
      | DRAW_DISCARD p =>
        cases h
        exact applyDrawDiscard_counters s p hc
      | OPEN_GROUP p ids => exact applyOpenGroup_counters s p ids pair h hc
      | OPEN_MULTI p groups => exact applyOpenMulti_counters s p groups pair h hc
      | LAY_MELD p ids => exact applyLayMeld_counters s p ids pair h hc
      | ADD_TO_MELD p mid ids => exact applyAddToMeld_counters s p mid ids pair h hc
      | SWAP_JOKER p mid j r => exact applySwapJoker_counters s p mid j r pair h hc
      | PASS_ACTION p =>
        cases h
        exact applyPassAction_counters s hc
      | DISCARD p ids =>
        cases h
        exact applyDiscard_counters s p ids hc

theorem initGame_countersOk (np : Nat) (deck : List CardDTO) :
    CountersOk (initGame np deck) :=
  ⟨fun _ => rfl, rfl⟩

/-- C10: after initGame and after every applyAction call that returns, whether
it succeeded, was rejected, or took a rollback path, every player's public
handCount equals the length of that player's hidden hand and deckCount equals
the number of CardIDs remaining in the hidden draw order. -/
theorem C10_public_counters (s : GameState) (h : Reachable s) : CountersOk s := by
  obtain ⟨np, deck, -, -, -, hrf⟩ := h
  induction hrf with
  | refl => exact initGame_countersOk np deck
  | step hr hstep ih =>
    obtain ⟨a, r, happ⟩ := hstep
    exact applyAction_counters _ a _ happ ih

theorem C10_public_counters_witness :
    CountersOk (applyStep (initGame 2 factoryDeck) (Action.DRAW_DECK 0)) :=
  C10_public_counters _ ⟨2, factoryDeck, by omega, by omega, ⟨by decide, by decide⟩,
    ReachableFrom.step ReachableFrom.refl
      (stepTo_applyStep (initGame 2 factoryDeck) (Action.DRAW_DECK 0) (by decide))⟩

end Card51
